import Mathlib

/-!
Verification of the FieldOS CRM Sync Manager (`crm_sync.py`).

This file gives a shallow embedding of the reliable CRM delivery subsystem:
JSON-like payload dictionaries, the snapshot store with schema migration,
the delivery client's outcome normalisation, the worker's retry state
machine, the offline cache, and the offline-cache flush.  Python dicts are
modelled as insertion-ordered association lists (`Dict`), Python values as
a `Json` inductive.  File-system effects are modelled by threading an
explicit snapshot-file state (`SnapFile`) and a `diskOk` flag saying
whether writes succeed; wall-clock timestamps and generated UUIDs are
threaded as explicit string parameters.  Floating point numbers of the
base schema (the `0.0` telemetry totals) are modelled as the integer `0`;
no property below depends on float arithmetic.
-/

set_option autoImplicit false

namespace CrmSync

/-- JSON-serialisable Python values, as produced by `_normalize_payload`.
Numbers are modelled as integers (the subsystem's numeric fields are
counters and HTTP codes). -/
inductive Json where
  | null : Json
  | bool : Bool → Json
  | num : Int → Json
  | str : String → Json
  | arr : List Json → Json
  | obj : List (String × Json) → Json

/-- A Python dict with string keys: an insertion-ordered association list.
All dictionaries built by the embedded code keep keys unique, as Python
dicts do. -/
abbrev Dict := List (String × Json)

/-- `d.get(key)`: first value stored under `key`, if any. -/
def dGet : Dict → String → Option Json
  | [], _ => none
  | (k, v) :: rest, key => if k = key then some v else dGet rest key

/-- `key in d`. -/
def dContains (d : Dict) (key : String) : Bool :=
  (dGet d key).isSome

/-- `d[key] = val`: replace in place if the key exists (keeping its
position), else append at the end — Python dict assignment order. -/
def dSet : Dict → String → Json → Dict
  | [], key, val => [(key, val)]
  | (k, v) :: rest, key, val =>
    if k = key then (k, val) :: rest else (k, v) :: dSet rest key val

/-- `d.pop(key, None)`: remove the entry stored under `key`. -/
def dPop : Dict → String → Dict
  | [], _ => []
  | (k, v) :: rest, key =>
    if k = key then dPop rest key else (k, v) :: dPop rest key

/-- `d.setdefault(key, val)`. -/
def dSetdefault (d : Dict) (key : String) (val : Json) : Dict :=
  if dContains d key then d else d ++ [(key, val)]

/-- `d.update(u)`: assign every entry of `u` into `d`, in order. -/
def dUpdate (d u : Dict) : Dict :=
  u.foldl (fun acc kv => dSet acc kv.1 kv.2) d

/-- Python truthiness of a JSON value. -/
def Json.truthy : Json → Bool
  | .null => false
  | .bool b => b
  | .num n => n ≠ 0
  | .str s => s ≠ ""
  | .arr l => ¬ l.isEmpty
  | .obj d => ¬ d.isEmpty

/-- Best-effort `str()` of a JSON value, used only to build UI message
strings (never load-bearing for any claim; container rendering is
abbreviated). -/
def Json.pyStr : Json → String
  | .null => "None"
  | .bool b => if b then "True" else "False"
  | .num n => toString n
  | .str s => s
  | .arr _ => "<list>"
  | .obj _ => "<dict>"

/-! ### Snapshot store (`BASE_SNAPSHOT`, `load_snapshot`, `save_snapshot`) -/

/-- `RECENT_PAYLOAD_LIMIT = 5`. -/
def RECENT_PAYLOAD_LIMIT : Nat := 5

/-- `DEFAULT_CRM_MAX_RETRIES = 3`. -/
def DEFAULT_CRM_MAX_RETRIES : Int := 3

/-- The base snapshot schema (`BASE_SNAPSHOT`); the `0.0` float telemetry
totals are modelled as the integer `0`. -/
def BASE_SNAPSHOT : Dict :=
  [ ("cached_records", .arr []),
    ("last_sync", .null),
    ("ai_fail_count", .num 0),
    ("ai_latency_totals", .obj [("transcribe", .num 0), ("polish", .num 0)]),
    ("ai_latency_counts", .obj [("transcribe", .num 0), ("polish", .num 0)]),
    ("last_payload", .obj []),
    ("recent_payloads", .arr []),
    ("last_crm_status", .obj
      [ ("state", .null), ("timestamp", .null),
        ("response_code", .null), ("error", .null) ]) ]

/-- State of the snapshot file on disk as `load_snapshot` observes it:
missing, unreadable-or-not-JSON (an `OSError` on read or a
`json.JSONDecodeError`, the cases its `except` clause catches),
whitespace-only (`raw.strip()` falsy), or parsed JSON content. -/
inductive SnapFile where
  | absent : SnapFile
  | corrupt : SnapFile
  | empty : SnapFile
  | json : Json → SnapFile

/-- One iteration of the migration loop of `load_snapshot`: for a base
entry `(key, value)`, if `key` is missing it is assigned; else if both the
base value and the stored value are dicts, missing nested keys are
`setdefault`ed in. -/
def migrateStep (snap : Dict) (kv : String × Json) : Dict :=
  match dGet snap kv.1 with
  | none => dSet snap kv.1 kv.2
  | some stored =>
    match kv.2, stored with
    | .obj baseNested, .obj storedNested =>
      dSet snap kv.1
        (.obj (baseNested.foldl (fun acc nkv => dSetdefault acc nkv.1 nkv.2) storedNested))
    | _, _ => snap

/-- The migration loop of `load_snapshot` over the whole base schema. -/
def migrate (snap : Dict) : Dict :=
  BASE_SNAPSHOT.foldl migrateStep snap

/-- `load_snapshot()`, as a function of the file state and a `diskOk` flag
saying whether writes to disk succeed.  Returns the new file state and the
returned document, or an error when the source would raise: a failing
write (`OSError` from `write_text`, which sits outside the `try` block) or
a parsed document that is not a JSON object (the migration loop then hits
an uncaught `TypeError` — e.g. for the document `[]` the first assignment
`snap["cached_records"] = []` fails on a list).  Pathological non-object
documents that happen to contain every base key (certain strings/arrays)
are outside the modelled scope; no theorem below touches them. -/
def load_snapshot (diskOk : Bool) (f : SnapFile) : Except Unit (SnapFile × Dict) :=
  match f, diskOk with
  | .absent, false => .error ()
  | .absent, true =>
    let merged := migrate BASE_SNAPSHOT
    .ok (.json (.obj merged), merged)
  | .corrupt, dk =>
    let merged := migrate []
    if dk then .ok (.json (.obj merged), merged) else .error ()
  | .empty, dk =>
    let merged := migrate []
    if dk then .ok (.json (.obj merged), merged) else .error ()
  | .json (.obj d), dk =>
    let merged := migrate d
    if dk then .ok (.json (.obj merged), merged) else .error ()
  | .json _, _ => .error ()

/-- The value assigned by one step of `save_snapshot`'s merge: the update
value wholesale, unless both it and the stored value are dicts, in which
case the stored dict is `update`d key-by-key. -/
def saveMergeValue (stored : Option Json) (v : Json) : Json :=
  match v, stored with
  | .obj updNested, some (.obj storedNested) => .obj (dUpdate storedNested updNested)
  | _, _ => v

/-- The nested-merge step of `save_snapshot` for one update entry. -/
def saveMergeStep (snap : Dict) (kv : String × Json) : Dict :=
  dSet snap kv.1 (saveMergeValue (dGet snap kv.1) kv.2)

/-- `save_snapshot(update)`: load (and so migrate), merge the update
(nested dicts shallow-merged), refresh `last_sync`, write back. -/
def save_snapshot (diskOk : Bool) (f : SnapFile) (now : String) (update : Dict) :
    Except Unit SnapFile :=
  match load_snapshot diskOk f with
  | .error _ => .error ()
  | .ok (_, snap) =>
    let merged := update.foldl saveMergeStep snap
    let final := dSet merged "last_sync" (.str now)
    if diskOk then .ok (.json (.obj final)) else .error ()

/-- The `last_crm_status` fallback dict used by
`_update_snapshot_with_payload` when no status is given. -/
def nullStatusDict : Dict :=
  [ ("state", .null), ("timestamp", .null),
    ("response_code", .null), ("error", .null) ]

/-- `recent_payloads` history as read by `_update_snapshot_with_payload`:
the stored list, or `[]` when missing or not a list. -/
def historyOf (current : Dict) : List Json :=
  match dGet current "recent_payloads" with
  | some (.arr l) => l
  | _ => []

/-- `_update_snapshot_with_payload(payload, status)`: attach the status
block, load the snapshot, prepend to the bounded history, save.  Returns
`(snapshot_ok, serialized, new file state)`; any raise from load or save
is caught and reported as `snapshot_ok = false` with the file unchanged. -/
def _update_snapshot_with_payload (diskOk : Bool) (f : SnapFile) (now : String)
    (payload : Dict) (status : Option Dict) : Bool × Dict × SnapFile :=
  let serialized :=
    match status with
    | some st => dSet payload "crm_status" (.obj st)
    | none => payload
  match load_snapshot diskOk f with
  | .error _ => (false, serialized, f)
  | .ok (f₁, current) =>
    let updatedHistory := (Json.obj serialized :: historyOf current).take RECENT_PAYLOAD_LIMIT
    let update : Dict :=
      [ ("last_payload", .obj serialized),
        ("recent_payloads", .arr updatedHistory),
        ("last_crm_status", .obj (status.getD nullStatusDict)) ]
    match save_snapshot diskOk f₁ now update with
    | .error _ => (false, serialized, f₁)
    | .ok f₂ => (true, serialized, f₂)

/-! ### Delivery client (`send_to_crm`, `_safe_send_to_crm`) -/

/-- What the HTTP layer hands back to `send_to_crm`: either a
`requests.RequestException` (with the status code of the exception's
attached response, if any — `getattr(exc.response, "status_code", None)` —
and its message), or a response with a status code, the result of
`response.json()` (`none` models a `ValueError`), and `response.text`. -/
inductive HttpResult where
  | exc : Option Int → String → HttpResult
  | response : Int → Option Json → String → HttpResult

/-- An `Option Int` response code as the JSON value stored in an outcome
dict. -/
def optCodeJson : Option Int → Json
  | none => .null
  | some c => .num c

/-- `key.startswith(prefix)`, computed on the character lists so that it
reduces definitionally. -/
def pyStartsWith (k p : String) : Bool :=
  p.data.isPrefixOf k.data

/-- The body `send_to_crm` transmits: the payload with every key prefixed
`_crm_` and any `crm_status` key stripped (lines 318–322). -/
def transmittedBody (payload : Dict) : Dict :=
  payload.filter (fun kv => !(pyStartsWith kv.1 "_crm_" || kv.1 == "crm_status"))

/-- The strip predicate the spec text describes instead: every `_crm_` key
except the payload ID, and `crm_status`.  Declared only to be compared
with `transmittedBody`; it follows the spec's words, not the source. -/
def specTransmittedBody (payload : Dict) : Dict :=
  payload.filter
    (fun kv =>
      !((pyStartsWith kv.1 "_crm_" && kv.1 != "_crm_payload_id") || kv.1 == "crm_status"))

/-- The error value of a non-2xx outcome (lines 362–378):
`error_json.get("error") if isinstance(error_json, dict) else None` on a
parsable body, `response.text` on a `ValueError`, with the falsy fallback
`error_message or f"HTTP {code}"`. -/
def httpErrorValue (jsonBody : Option Json) (text : String) (code : Int) : Json :=
  let em : Json :=
    match jsonBody with
    | some (.obj d) => (dGet d "error").getD .null
    | some _ => .null
    | none => .str text
  if em.truthy then em else .str ("HTTP " ++ toString code)

/-- Outcome normalisation of `send_to_crm` as a function of the HTTP
result.  (The transmitted body itself is `transmittedBody payload`; the
payload-ID generation the function also performs is modelled in
`_generate_payload_id`.) -/
def send_to_crm (http : HttpResult) : Dict :=
  match http with
  | .exc codeOpt msg =>
    [ ("status", .str "error"), ("response_code", optCodeJson codeOpt),
      ("error", .str msg) ]
  | .response code jsonBody text =>
    if 200 ≤ code ∧ code < 300 then
      [ ("status", .str "ok"), ("response_code", .num code),
        ("body", jsonBody.getD .null) ]
    else
      [ ("status", .str "error"), ("response_code", .num code),
        ("error", httpErrorValue jsonBody text code) ]

/-- What an injected delivery client (`CRM_DELIVERY_CLIENT`) does on one
call: return an outcome dict, or raise. -/
inductive ClientResult where
  | returns : Dict → ClientResult
  | raises : String → ClientResult

/-- A delivery client: a function of the payload and the retry count. -/
abbrev Client := Dict → Int → ClientResult

/-- `_safe_send_to_crm`: the caller-side guard converting any raised
exception into the `error` outcome shape. -/
def _safe_send_to_crm (client : Client) (payload : Dict) (retryCount : Int) : Dict :=
  match client payload retryCount with
  | .returns d => d
  | .raises msg =>
    [("status", .str "error"), ("response_code", .null), ("error", .str msg)]

/-- `result.get("status") == "ok"`. -/
def statusIsOk (result : Dict) : Bool :=
  match dGet result "status" with
  | some (.str s) => s = "ok"
  | _ => false

/-- `int(payload.get("_crm_retry_attempts", 0))`, modelled for numeric or
absent values — the only ones the subsystem itself ever writes (the
source would raise on a non-numeric string). -/
def attemptsOf (payload : Dict) : Int :=
  match dGet payload "_crm_retry_attempts" with
  | some (.num n) => n
  | _ => 0

/-- `_generate_payload_id(payload)`: reuse a truthy string
`_crm_payload_id` or `ts`; otherwise assign a fresh token (`uuid4`,
threaded in as `freshId`).  Returns the ID and the possibly-updated
payload. -/
def _generate_payload_id (freshId : String) (payload : Dict) : String × Dict :=
  let a := (dGet payload "_crm_payload_id").getD .null
  let existing := if a.truthy then a else (dGet payload "ts").getD .null
  match existing with
  | .str s =>
    if s = "" then (freshId, dSet payload "_crm_payload_id" (.str freshId))
    else (s, payload)
  | _ => (freshId, dSet payload "_crm_payload_id" (.str freshId))

/-- `max(1, max_retries)` — the effective retry ceiling produced by
`_get_crm_config` from the configured `FIELDOS_CRM_MAX_RETRIES` value. -/
def crmMaxRetries (configured : Int) : Int :=
  max 1 configured

/-- `_build_status_meta(state, response_code, error)`; the timestamp is the
threaded-in clock string. -/
def _build_status_meta (state : String) (now : String)
    (responseCode : Json) (error : Json) : Dict :=
  [ ("state", .str state), ("timestamp", .str now),
    ("response_code", responseCode), ("error", error) ]

/-! ### Session state and the delivery worker -/

/-- The session fields the delivery subsystem reads or writes, together
with the snapshot file state (the on-disk document threaded alongside the
session) and a ghost trace `delivery_attempts` recording the retry count
of every invocation of the delivery client.  Fields of
`_ensure_session_lists` not touched by the delivery path, the CRM mirror
CSV, and logger output are outside the model. -/
structure Session where
  crm_queue : List Dict := []
  crm_sync_log : List (String × Dict) := []
  offline_cache : List Dict := []
  gps : String := ""
  offline : Bool := false
  crm_snapshot_warning_logged : Bool := false
  crm_snapshot_warning_pending : Bool := false
  crm_snapshot_warning_message : String := ""
  last_crm_payload : Option Dict := none
  last_crm_status : Option Dict := none
  crm_delivery_pending : Bool := false
  crm_delivery_status : Option Dict := none
  crm_delivery_message : String := ""
  crm_delivery_payload_id : Option Json := none
  crm_retry_available : Bool := false
  crm_retry_in_progress : Bool := false
  crm_last_delivery_id : Option Json := none
  crm_processed_count : Int := 0
  ops_log : List String := []
  snapshot_file : SnapFile := .absent
  delivery_attempts : List Int := []

/-- The payload view `_record_crm_delivery` persists: every `_crm_` key
except `_crm_payload_id` stripped (lines 400–403). -/
def snapshotView (payload : Dict) : Dict :=
  payload.filter (fun kv => !(pyStartsWith kv.1 "_crm_" && kv.1 != "_crm_payload_id"))

/-- The user-facing message `_record_crm_delivery` builds per state label. -/
def deliveryMessage (state_label : String) (now : String) (err : Json) : String :=
  if state_label = "synced" then "Synced to CRM at " ++ now
  else if state_label = "cached" then "Offline: payload cached for CRM sync"
  else if state_label = "retrying" then "CRM push failed, retrying shortly…"
  else "CRM push failed: " ++ (if err.truthy then err.pyStr else "unknown error")

/-- The `crm_retry_available` flag `_record_crm_delivery` sets per label. -/
def retryAvailable (state_label : String) : Bool :=
  if state_label = "synced" then false
  else if state_label = "cached" then true
  else if state_label = "retrying" then false
  else true

/-- `_record_crm_delivery(session, payload, result, state_label,
will_retry)`: build the status block, persist it (snapshot), update
in-memory last-payload/status on success or raise the sticky degraded
flag on failure, set the UI delivery fields, bump the processed counter,
and append the sync-log and ops-log entries. -/
def _record_crm_delivery (diskOk : Bool) (now : String) (s : Session)
    (payload result : Dict) (state_label : String) (will_retry : Bool) : Session :=
  let status_meta := _build_status_meta state_label now
    ((dGet result "response_code").getD .null) ((dGet result "error").getD .null)
  let payload_for_snapshot := snapshotView payload
  let t := _update_snapshot_with_payload diskOk s.snapshot_file now
    payload_for_snapshot (some status_meta)
  let snapshot_ok := t.1
  let serialized := t.2.1
  { s with
    snapshot_file := t.2.2,
    crm_snapshot_warning_logged := if snapshot_ok then false else true,
    crm_snapshot_warning_pending := if snapshot_ok then false else true,
    crm_snapshot_warning_message :=
      if snapshot_ok then "" else "Unable to persist CRM payload to snapshot.",
    last_crm_payload := if snapshot_ok then some serialized else s.last_crm_payload,
    last_crm_status := if snapshot_ok then some status_meta else s.last_crm_status,
    crm_last_delivery_id := dGet payload "_crm_payload_id",
    crm_delivery_pending := true,
    crm_delivery_status := some status_meta,
    crm_delivery_message :=
      deliveryMessage state_label now ((dGet result "error").getD .null),
    crm_delivery_payload_id := dGet payload "_crm_payload_id",
    crm_retry_available := retryAvailable state_label,
    crm_retry_in_progress := if will_retry then s.crm_retry_in_progress else false,
    crm_processed_count := s.crm_processed_count + 1,
    crm_sync_log := s.crm_sync_log ++ [(state_label, payload_for_snapshot)],
    ops_log := s.ops_log ++ [state_label] }

/-- The fallback result dict of `_cache_payload`. -/
def cachedResultDict : Dict :=
  [("status", .str "cached"), ("response_code", .null), ("error", .null)]

/-- `_cache_payload`: augment with cache bookkeeping, append to the
offline cache, and record the delivery. -/
def _cache_payload (diskOk : Bool) (now : String) (s : Session)
    (payload : Dict) (result : Option Dict) (state_label : String) : Session :=
  let cached := dSet (dSet (dSet payload "_offline_cached" (.bool true))
    "_cached_at" (.str now)) "_gps" (.str s.gps)
  let s₁ := { s with offline_cache := s.offline_cache ++ [cached] }
  _record_crm_delivery diskOk now s₁ cached (result.getD cachedResultDict) state_label false

/-- `identifier == entry.get(key)` for a string identifier: true exactly
when the stored value is that string. -/
def idMatches (o : Option Json) (idStr : String) : Bool :=
  match o with
  | some (.str s) => s = idStr
  | _ => false

/-- The identifiers `_remove_offline_cached_entry` collects from the
payload's `_crm_payload_id` and `ts` fields (truthy strings only). -/
def removeIdentifiers (payload : Dict) : List String :=
  ["_crm_payload_id", "ts"].filterMap (fun key =>
    match dGet payload key with
    | some (.str v) => if v = "" then none else some v
    | _ => none)

/-- `_remove_offline_cached_entry`: drop cache entries matching the
payload's `_crm_payload_id` or `ts`. -/
def _remove_offline_cached_entry (s : Session) (payload : Dict) : Session :=
  if s.offline_cache.isEmpty then s
  else if (removeIdentifiers payload).isEmpty then s
  else
    { s with offline_cache :=
        s.offline_cache.filter (fun entry =>
          !((removeIdentifiers payload).any (fun idf =>
            idMatches (dGet entry "_crm_payload_id") idf
            || idMatches (dGet entry "ts") idf))) }

/-- `_process_payload(payload, offline)`: the worker's per-payload retry
state machine. -/
def _process_payload (cfg : Int) (client : Client) (diskOk : Bool)
    (now freshId : String) (s : Session) (payload : Dict) (offline : Bool) : Session :=
  let g := _generate_payload_id freshId payload
  let payload_id := g.1
  let payload_copy := g.2
  let max_retries := crmMaxRetries cfg
  let retry_attempts := attemptsOf payload_copy
  if offline ∨ s.offline then
    _cache_payload diskOk now s
      (dSet payload_copy "_crm_retry_attempts" (.num retry_attempts)) none "cached"
  else
    let s₀ := { s with delivery_attempts := s.delivery_attempts ++ [retry_attempts] }
    let result := _safe_send_to_crm client payload_copy retry_attempts
    if statusIsOk result then
      let pc := dPop (dPop payload_copy "_crm_retry_attempts") "_crm_last_error"
      let s₁ := _record_crm_delivery diskOk now s₀ pc result "synced" false
      _remove_offline_cached_entry s₁ pc
    else
      let ra := retry_attempts + 1
      let pc := dSet (dSet payload_copy "_crm_retry_attempts" (.num ra))
        "_crm_last_error" ((dGet result "error").getD .null)
      if ra < max_retries ∧ s.offline = false then
        let s₁ := { s₀ with
          crm_queue := s₀.crm_queue ++ [pc],
          crm_last_delivery_id := some (.str payload_id) }
        _record_crm_delivery diskOk now s₁ pc result "retrying" true
      else
        _cache_payload diskOk now s₀ pc (some result) "failed"

/-- One iteration of `_worker_loop`: pop the queue head and process it
with the current offline flag (an empty queue just sleeps). -/
def workerStep (cfg : Int) (client : Client) (diskOk : Bool)
    (now freshId : String) (s : Session) : Session :=
  match s.crm_queue with
  | [] => s
  | p :: rest =>
    _process_payload cfg client diskOk now freshId { s with crm_queue := rest } p s.offline

/-- `n` iterations of the worker loop. -/
def workerSteps (cfg : Int) (client : Client) (diskOk : Bool)
    (now freshId : String) : Nat → Session → Session
  | 0, s => s
  | n + 1, s => workerSteps cfg client diskOk now freshId n
      (workerStep cfg client diskOk now freshId s)

/-- The loop body of `flush_offline_cache` over the cached records,
threading the session, the flushed count, and the `remaining` list. -/
def flushLoop (cfg : Int) (client : Client) (diskOk : Bool) (now : String) :
    List Dict → Session → Nat → List Dict → Nat × Session × List Dict
  | [], s, flushed, remaining => (flushed, s, remaining)
  | record :: rest, s, flushed, remaining =>
    let payload_copy := record
    let max_retries := crmMaxRetries cfg
    let retry_attempts := attemptsOf payload_copy
    let s₀ := { s with delivery_attempts := s.delivery_attempts ++ [retry_attempts] }
    let result := _safe_send_to_crm client payload_copy retry_attempts
    if statusIsOk result then
      let pc := dPop (dPop (dPop (dPop (dPop payload_copy "_crm_retry_attempts")
        "_crm_last_error") "_offline_cached") "_cached_at") "_gps"
      let s₁ := _record_crm_delivery diskOk now s₀ pc result "synced" false
      flushLoop cfg client diskOk now rest s₁ (flushed + 1) remaining
    else
      let ra := retry_attempts + 1
      let pc := dSet (dSet payload_copy "_crm_retry_attempts" (.num ra))
        "_crm_last_error" ((dGet result "error").getD .null)
      if ra ≥ max_retries then
        let s₁ := _record_crm_delivery diskOk now s₀ pc result "failed" false
        flushLoop cfg client diskOk now rest s₁ flushed remaining
      else
        let s₁ := _record_crm_delivery diskOk now s₀ pc result "failed" false
        flushLoop cfg client diskOk now rest s₁ flushed (remaining ++ [pc])

/-- `flush_offline_cache()`: no-op while offline; otherwise retry every
cached entry once, keep the survivors, and log a `flushed` event when
anything was delivered.  Returns the flushed count and the new state. -/
def flush_offline_cache (cfg : Int) (client : Client) (diskOk : Bool)
    (now : String) (s : Session) : Nat × Session :=
  if s.offline then (0, s)
  else
    let t := flushLoop cfg client diskOk now s.offline_cache s 0 []
    let flushed := t.1
    let s₁ := { t.2.1 with offline_cache := t.2.2 }
    let s₂ := if flushed ≠ 0 then { s₁ with ops_log := s₁.ops_log ++ ["flushed"] } else s₁
    (flushed, s₂)

/-! ### Observation helpers for the statements -/

/-- Whether a JSON value is an object. -/
def Json.isObj : Json → Bool
  | .obj _ => true
  | _ => false

/-- File states on which `load_snapshot` completes when disk writes
succeed (everything except a parsed non-object document). -/
def SnapFile.loadable : SnapFile → Bool
  | .json (.obj _) => true
  | .json _ => false
  | _ => true

/-- The document stored in a snapshot file state, when it is an object. -/
def snapshotDoc : SnapFile → Option Dict
  | .json (.obj m) => some m
  | _ => none

/-- The `recent_payloads` list stored on disk. -/
def snapshotRecent (f : SnapFile) : List Json :=
  match snapshotDoc f with
  | some m => historyOf m
  | none => []

/-- The `state` field of a stored `last_crm_status` value, when that value
is an object. -/
def stateOfStatusValue : Option Json → Option Json
  | some (.obj st) => dGet st "state"
  | _ => none

/-- The `last_crm_status.state` value stored on disk. -/
def statusStateOfFile (f : SnapFile) : Option Json :=
  match snapshotDoc f with
  | some m => stateOfStatusValue (dGet m "last_crm_status")
  | none => none

/-- The `recent_payloads` history a load of file state `f` would return
(empty when the load raises). -/
def histOfFile (f : SnapFile) : List Json :=
  match load_snapshot true f with
  | .ok (_, m) => historyOf m
  | .error _ => []

/-- How many entries of a JSON list are objects carrying the given
`_crm_payload_id`. -/
def countPayloadId (l : List Json) (idStr : String) : Nat :=
  l.countP (fun j =>
    match j with
    | .obj d => idMatches (dGet d "_crm_payload_id") idStr
    | _ => false)

/-! ### Behaviour of the migration merge -/

/-- The per-key effect of the migration loop: a missing key receives the
base value; two objects merge with nested `setdefault`s; any other stored
value is kept as-is. -/
def mergeVal (v : Json) (old : Option Json) : Json :=
  match old with
  | none => v
  | some o =>
    match v, o with
    | .obj bn, .obj sn =>
      .obj (bn.foldl (fun acc nkv => dSetdefault acc nkv.1 nkv.2) sn)
    | _, _ => o

/-- The document written back by a successful
`_update_snapshot_with_payload` on a loaded document `M`. -/
def finalSnapshotDoc (M : Dict) (now : String) (serialized status : Dict) : Dict :=
  dSet
    (([ ("last_payload", Json.obj serialized),
        ("recent_payloads",
          Json.arr ((Json.obj serialized :: historyOf M).take RECENT_PAYLOAD_LIMIT)),
        ("last_crm_status", Json.obj status) ] : Dict).foldl saveMergeStep (migrate M))
    "last_sync" (.str now)

/-- The error value of a non-2xx outcome as the (amended) specification
describes it: the truthy JSON `error` field of an object body, else the
non-empty raw body text when the body is not valid JSON, with the fallback
`HTTP <code>` in every remaining case.  Declared to be compared with
`httpErrorValue`; it is a restatement of the spec's words, not of the
source. -/
def claimedErrorValue (jsonBody : Option Json) (text : String) (code : Int) : Json :=
  match jsonBody with
  | some (.obj d) =>
    match dGet d "error" with
    | some e => if e.truthy then e else .str ("HTTP " ++ toString code)
    | none => .str ("HTTP " ++ toString code)
  | some _ => .str ("HTTP " ++ toString code)
  | none => if text = "" then .str ("HTTP " ++ toString code) else .str text

/-! ### Concrete fixtures used by witnesses and counterexamples -/

/-- A delivery client that fails every attempt with a 500. -/
def exErrClient : Client := fun _ _ =>
  .returns [("status", .str "error"), ("response_code", .num 500), ("error", .str "boom")]

/-- A delivery client that succeeds on every attempt. -/
def exOkClient : Client := fun _ _ =>
  .returns [("status", .str "ok"), ("response_code", .num 200), ("body", .obj [])]

/-- A delivery client that raises on every attempt. -/
def exRaisesClient : Client := fun _ _ => .raises "boom"

/-- A minimal payload carrying only a timestamp and a note. -/
def exPayload : Dict := [("ts", .str "t1"), ("note", .str "hello")]

/-- A payload already carrying a payload ID. -/
def exPayloadWithId : Dict := [("_crm_payload_id", .str "abc"), ("note", .str "n")]

/-- A successful delivery outcome dict. -/
def exOkResult : Dict := [("status", .str "ok"), ("response_code", .num 200), ("body", .obj [])]

/-- A failed delivery outcome dict. -/
def exErrResult : Dict :=
  [("status", .str "error"), ("response_code", .num 500), ("error", .str "boom")]

/-- A fresh session whose snapshot file does not exist yet. -/
def exSessionBase : Session := {}

/-- A fresh session with one payload queued. -/
def exSessionQueue : Session := { crm_queue := [exPayload] }

/-- A fresh session with offline mode active. -/
def exSessionOffline : Session := { offline := true }

/-- A session holding one offline-cached entry with no retries yet. -/
def exSessionCeiling : Session :=
  { offline_cache := [[("ts", .str "t1"), ("_crm_retry_attempts", .num 0)]] }

/-- The session after delivering the same payload twice (both snapshot
writes succeeding). -/
def exTwiceSession : Session :=
  _record_crm_delivery true "N2"
    (_record_crm_delivery true "N1" exSessionBase exPayloadWithId exOkResult "synced" false)
    exPayloadWithId exOkResult "synced" false

/-! ### Lemmas -/

/-! ### Association-list lemmas -/

theorem dGet_nil (key : String) : dGet [] key = none := rfl

theorem dGet_cons (k : String) (v : Json) (rest : Dict) (key : String) :
    dGet ((k, v) :: rest) key = if k = key then some v else dGet rest key := rfl

theorem dGet_dSet_self (d : Dict) (key : String) (val : Json) :
    dGet (dSet d key val) key = some val := by
  induction d with
  | nil => simp [dSet, dGet]
  | cons kv rest ih =>
    obtain ⟨k, v⟩ := kv
    by_cases h : k = key
    · simp [dSet, h, dGet]
    · simp [dSet, h, dGet, ih]

theorem dGet_dSet_ne (d : Dict) (key : String) (val : Json) (k' : String)
    (h : key ≠ k') : dGet (dSet d key val) k' = dGet d k' := by
  induction d with
  | nil => simp [dSet, dGet, h]
  | cons kv rest ih =>
    obtain ⟨k, v⟩ := kv
    by_cases hk : k = key
    · subst hk
      simp [dSet, dGet, h]
    · simp only [dSet, if_neg hk]
      by_cases hk' : k = k'
      · simp [dGet, hk']
      · simp [dGet, hk', ih]

theorem dGet_dPop_self (d : Dict) (key : String) :
    dGet (dPop d key) key = none := by
  induction d with
  | nil => rfl
  | cons kv rest ih =>
    obtain ⟨k, v⟩ := kv
    by_cases h : k = key
    · simpa [dPop, h] using ih
    · simpa [dPop, h, dGet] using ih

theorem dGet_dPop_ne (d : Dict) (key k' : String) (h : k' ≠ key) :
    dGet (dPop d key) k' = dGet d k' := by
  induction d with
  | nil => rfl
  | cons kv rest ih =>
    obtain ⟨k, v⟩ := kv
    by_cases hk : k = key
    · subst hk
      simp [dPop, dGet, Ne.symm h, ih]
    · by_cases hk' : k = k'
      · subst hk'
        simp [dPop, hk, dGet]
      · simp [dPop, hk, dGet, hk', ih]

theorem dGet_append_of_isSome (d₁ d₂ : Dict) (key : String)
    (h : (dGet d₁ key).isSome) : dGet (d₁ ++ d₂) key = dGet d₁ key := by
  induction d₁ with
  | nil => simp [dGet] at h
  | cons kv rest ih =>
    obtain ⟨k, v⟩ := kv
    by_cases hk : k = key
    · simp [dGet, hk]
    · simp only [dGet, if_neg hk] at h ⊢
      exact ih h

theorem dGet_append_of_isNone (d₁ d₂ : Dict) (key : String)
    (h : dGet d₁ key = none) : dGet (d₁ ++ d₂) key = dGet d₂ key := by
  induction d₁ with
  | nil => simp
  | cons kv rest ih =>
    obtain ⟨k, v⟩ := kv
    by_cases hk : k = key
    · simp [dGet, hk] at h
    · simp only [dGet, if_neg hk] at h ⊢
      exact ih h

theorem dGet_dSetdefault_self (d : Dict) (key : String) (val : Json) :
    dGet (dSetdefault d key val) key =
      if dContains d key then dGet d key else some val := by
  by_cases h : dContains d key
  · simp [dSetdefault, h]
  · have hnone : dGet d key = none := by
      unfold dContains at h
      cases hv : dGet d key with
      | none => rfl
      | some v => simp [hv] at h
    simp [dSetdefault, h]
    rw [dGet_append_of_isNone _ _ _ hnone]
    simp [dGet]

theorem dGet_dSetdefault_of_some (d : Dict) (key : String) (v : Json)
    (h : dGet d key = some v) : dGet (dSetdefault d key v) key = some v := by
  unfold dSetdefault dContains
  simp [h]

theorem dGet_dSetdefault_ne (d : Dict) (key : String) (val : Json) (k' : String)
    (h : k' ≠ key) : dGet (dSetdefault d key val) k' = dGet d k' := by
  unfold dSetdefault
  by_cases hc : dContains d key
  · simp [hc]
  · simp only [hc, Bool.false_eq_true, if_false]
    cases hv : dGet d k' with
    | some v => rw [dGet_append_of_isSome _ _ _ (by simp [hv])]; exact hv
    | none =>
      rw [dGet_append_of_isNone _ _ _ hv]
      simp [dGet, Ne.symm h]

theorem dContains_dSetdefault (d : Dict) (key : String) (val : Json) :
    dContains (dSetdefault d key val) key = true := by
  unfold dContains
  by_cases h : dContains d key
  · unfold dSetdefault
    simp only [h, if_true]
    unfold dContains at h
    exact h
  · rw [dGet_dSetdefault_self]
    simp [h]

/-! ### Generic lemmas about the embedded dict operations -/

theorem dGet_filter_key (f : String → Bool) (p : Dict) (k : String) :
    dGet (p.filter (fun kv => f kv.1)) k = if f k then dGet p k else none := by
  induction p with
  | nil => simp [dGet]
  | cons kv rest ih =>
    obtain ⟨k', v⟩ := kv
    by_cases hf : f k'
    · rw [List.filter_cons_of_pos (by simpa using hf)]
      by_cases hk : k' = k
      · subst hk
        simp [dGet, hf]
      · simp [dGet, hk, ih]
    · rw [List.filter_cons_of_neg (by simpa using hf)]
      by_cases hk : k' = k
      · subst hk
        simp [dGet, hf, ih]
      · simp [dGet, hk, ih]

theorem attemptsOf_dSet_ne (p : Dict) (k : String) (v : Json)
    (h : k ≠ "_crm_retry_attempts") : attemptsOf (dSet p k v) = attemptsOf p := by
  unfold attemptsOf
  rw [dGet_dSet_ne _ _ _ _ h]

theorem attemptsOf_dSet_num (p : Dict) (n : Int) :
    attemptsOf (dSet p "_crm_retry_attempts" (.num n)) = n := by
  unfold attemptsOf
  rw [dGet_dSet_self]

theorem attemptsOf_genId (freshId : String) (p : Dict) :
    attemptsOf (_generate_payload_id freshId p).2 = attemptsOf p := by
  unfold _generate_payload_id
  cases hex : (if ((dGet p "_crm_payload_id").getD .null).truthy
      then (dGet p "_crm_payload_id").getD .null
      else (dGet p "ts").getD .null) with
  | str sv =>
    simp only [hex]
    by_cases hsv : sv = ""
    · simp [hsv, attemptsOf_dSet_ne]
    · simp [hsv]
  | null => simp only [hex]; exact attemptsOf_dSet_ne _ _ _ (by decide)
  | bool b => simp only [hex]; exact attemptsOf_dSet_ne _ _ _ (by decide)
  | num n => simp only [hex]; exact attemptsOf_dSet_ne _ _ _ (by decide)
  | arr l => simp only [hex]; exact attemptsOf_dSet_ne _ _ _ (by decide)
  | obj d => simp only [hex]; exact attemptsOf_dSet_ne _ _ _ (by decide)

/-! ### Projection lemmas for the session-updating operations -/

theorem record_crm_queue (dk : Bool) (now : String) (s : Session) (p r : Dict)
    (lbl : String) (w : Bool) :
    (_record_crm_delivery dk now s p r lbl w).crm_queue = s.crm_queue := rfl

theorem record_offline (dk : Bool) (now : String) (s : Session) (p r : Dict)
    (lbl : String) (w : Bool) :
    (_record_crm_delivery dk now s p r lbl w).offline = s.offline := rfl

theorem record_offline_cache (dk : Bool) (now : String) (s : Session) (p r : Dict)
    (lbl : String) (w : Bool) :
    (_record_crm_delivery dk now s p r lbl w).offline_cache = s.offline_cache := rfl

theorem record_ops_log (dk : Bool) (now : String) (s : Session) (p r : Dict)
    (lbl : String) (w : Bool) :
    (_record_crm_delivery dk now s p r lbl w).ops_log = s.ops_log ++ [lbl] := rfl

theorem record_delivery_attempts (dk : Bool) (now : String) (s : Session) (p r : Dict)
    (lbl : String) (w : Bool) :
    (_record_crm_delivery dk now s p r lbl w).delivery_attempts = s.delivery_attempts := rfl

theorem cache_offline_cache (dk : Bool) (now : String) (s : Session) (p : Dict)
    (r : Option Dict) (lbl : String) :
    (_cache_payload dk now s p r lbl).offline_cache =
      s.offline_cache ++
        [dSet (dSet (dSet p "_offline_cached" (.bool true)) "_cached_at" (.str now))
          "_gps" (.str s.gps)] := rfl

theorem cache_crm_queue (dk : Bool) (now : String) (s : Session) (p : Dict)
    (r : Option Dict) (lbl : String) :
    (_cache_payload dk now s p r lbl).crm_queue = s.crm_queue := rfl

theorem cache_ops_log (dk : Bool) (now : String) (s : Session) (p : Dict)
    (r : Option Dict) (lbl : String) :
    (_cache_payload dk now s p r lbl).ops_log = s.ops_log ++ [lbl] := rfl

theorem cache_delivery_attempts (dk : Bool) (now : String) (s : Session) (p : Dict)
    (r : Option Dict) (lbl : String) :
    (_cache_payload dk now s p r lbl).delivery_attempts = s.delivery_attempts := rfl

theorem cache_offline (dk : Bool) (now : String) (s : Session) (p : Dict)
    (r : Option Dict) (lbl : String) :
    (_cache_payload dk now s p r lbl).offline = s.offline := rfl

theorem remove_crm_queue (s : Session) (p : Dict) :
    (_remove_offline_cached_entry s p).crm_queue = s.crm_queue := by
  unfold _remove_offline_cached_entry
  split
  · rfl
  · split <;> rfl

theorem remove_ops_log (s : Session) (p : Dict) :
    (_remove_offline_cached_entry s p).ops_log = s.ops_log := by
  unfold _remove_offline_cached_entry
  split
  · rfl
  · split <;> rfl

theorem remove_delivery_attempts (s : Session) (p : Dict) :
    (_remove_offline_cached_entry s p).delivery_attempts = s.delivery_attempts := by
  unfold _remove_offline_cached_entry
  split
  · rfl
  · split <;> rfl

theorem remove_offline (s : Session) (p : Dict) :
    (_remove_offline_cached_entry s p).offline = s.offline := by
  unfold _remove_offline_cached_entry
  split
  · rfl
  · split <;> rfl

/-! ### The snapshot update under failing and succeeding disks -/

theorem update_snapshot_false (f : SnapFile) (now : String) (p : Dict)
    (st : Option Dict) :
    _update_snapshot_with_payload false f now p st =
      (false,
        match st with
        | some stt => dSet p "crm_status" (.obj stt)
        | none => p,
        f) := by
  cases f with
  | absent => cases st <;> rfl
  | corrupt => cases st <;> rfl
  | empty => cases st <;> rfl
  | json j => cases j <;> cases st <;> rfl

theorem load_ok_shape (f : SnapFile) (h : SnapFile.loadable f = true) :
    ∃ d, load_snapshot true f = .ok (.json (.obj (migrate d)), migrate d)
      ∧ histOfFile f = historyOf (migrate d) := by
  cases f with
  | absent => exact ⟨BASE_SNAPSHOT, rfl, rfl⟩
  | corrupt => exact ⟨[], rfl, rfl⟩
  | empty => exact ⟨[], rfl, rfl⟩
  | json j =>
    cases j with
    | obj d => exact ⟨d, rfl, rfl⟩
    | null => simp [SnapFile.loadable] at h
    | bool b => simp [SnapFile.loadable] at h
    | num n => simp [SnapFile.loadable] at h
    | str s => simp [SnapFile.loadable] at h
    | arr l => simp [SnapFile.loadable] at h

theorem migrateStep_get_ne (d : Dict) (k' : String) (v' : Json) (k : String)
    (h : k' ≠ k) : dGet (migrateStep d (k', v')) k = dGet d k := by
  unfold migrateStep
  cases hget : dGet d k' with
  | none => exact dGet_dSet_ne _ _ _ _ h
  | some stored =>
    cases v' <;> cases stored <;> first | exact dGet_dSet_ne _ _ _ _ h | rfl

theorem migrateStep_get_self (d : Dict) (k' : String) (v' : Json) :
    dGet (migrateStep d (k', v')) k' = some (mergeVal v' (dGet d k')) := by
  unfold migrateStep mergeVal
  cases hget : dGet d k' with
  | none => exact dGet_dSet_self _ _ _
  | some stored =>
    cases v' <;> cases stored <;> first | exact dGet_dSet_self _ _ _ | exact hget

theorem migrateFold_get_not_mem (base : List (String × Json)) (d : Dict) (k : String)
    (h : ∀ kv ∈ base, kv.1 ≠ k) :
    dGet (base.foldl migrateStep d) k = dGet d k := by
  induction base generalizing d with
  | nil => rfl
  | cons kv rest ih =>
    obtain ⟨k', v'⟩ := kv
    have hk' : k' ≠ k := h (k', v') (by simp)
    rw [List.foldl_cons, ih (migrateStep d (k', v')) (fun p hp => h p (by simp [hp])),
      migrateStep_get_ne _ _ _ _ hk']

theorem migrateFold_get_mem (base : List (String × Json)) (d : Dict) (k : String) (v : Json)
    (hnd : (base.map Prod.fst).Nodup) (hmem : (k, v) ∈ base) :
    dGet (base.foldl migrateStep d) k = some (mergeVal v (dGet d k)) := by
  induction base generalizing d with
  | nil => simp at hmem
  | cons kv rest ih =>
    obtain ⟨k', v'⟩ := kv
    rw [List.map_cons, List.nodup_cons] at hnd
    rcases List.mem_cons.mp hmem with hhead | htail
    · obtain ⟨hk, hv⟩ := Prod.mk.injEq .. ▸ hhead
      subst hk
      subst hv
      rw [List.foldl_cons,
        migrateFold_get_not_mem rest (migrateStep d (k, v)) k
          (fun p hp hpk => hnd.1 (by simpa [hpk] using List.mem_map_of_mem Prod.fst hp)),
        migrateStep_get_self]
    · have hk' : k' ≠ k := by
        intro hkk
        subst hkk
        exact hnd.1 (by simpa using List.mem_map_of_mem Prod.fst htail)
      rw [List.foldl_cons, ih (migrateStep d (k', v')) hnd.2 htail,
        migrateStep_get_ne _ _ _ _ hk']

theorem sd_preserves_some (sn : Dict) (k' : String) (v' : Json) (k : String) (v : Json)
    (h : dGet sn k = some v) : dGet (dSetdefault sn k' v') k = some v := by
  by_cases hk : k' = k
  · subst hk
    unfold dSetdefault
    have : dContains sn k' = true := by unfold dContains; simp [h]
    simp [this, h]
  · rw [dGet_dSetdefault_ne _ _ _ _ (fun hh => hk hh.symm)]
    exact h

theorem sdFold_get_some (bn sn : Dict) (k : String) (v : Json)
    (h : dGet sn k = some v) :
    dGet (bn.foldl (fun acc nkv => dSetdefault acc nkv.1 nkv.2) sn) k = some v := by
  induction bn generalizing sn with
  | nil => exact h
  | cons kv rest ih =>
    rw [List.foldl_cons]
    exact ih _ (sd_preserves_some _ _ _ _ _ h)

theorem sdFold_contains (bn sn : Dict) (k : String) (v : Json) (hmem : (k, v) ∈ bn) :
    dContains (bn.foldl (fun acc nkv => dSetdefault acc nkv.1 nkv.2) sn) k = true := by
  induction bn generalizing sn with
  | nil => simp at hmem
  | cons kv rest ih =>
    rcases List.mem_cons.mp hmem with hhead | htail
    · subst hhead
      rw [List.foldl_cons]
      have hcont : dContains (dSetdefault sn k v) k = true := dContains_dSetdefault _ _ _
      unfold dContains at hcont
      cases hv : dGet (dSetdefault sn k v) k with
      | none => simp [hv] at hcont
      | some w =>
        unfold dContains
        simp [sdFold_get_some rest _ k w hv]
    · exact ih _ htail

theorem migrate_contains (d : Dict) (kv : String × Json) (hmem : kv ∈ BASE_SNAPSHOT) :
    dContains (migrate d) kv.1 = true := by
  obtain ⟨k, v⟩ := kv
  have hnd : (BASE_SNAPSHOT.map Prod.fst).Nodup := by decide
  unfold migrate dContains
  rw [migrateFold_get_mem BASE_SNAPSHOT d k v hnd hmem]
  rfl

/-! ### Behaviour of a successful snapshot update -/

theorem saveMergeValue_arr (stored : Option Json) (l : List Json) :
    saveMergeValue stored (.arr l) = .arr l := by
  cases stored with
  | none => rfl
  | some j => cases j <;> rfl

theorem dGet_status_meta_state (lbl tstamp : String) (cv ev : Json) :
    dGet (_build_status_meta lbl tstamp cv ev) "state" = some (.str lbl) := by
  simp [_build_status_meta, dGet]

theorem dUpdate_status_meta_state (sn : Dict) (lbl tstamp : String) (cv ev : Json) :
    dGet (dUpdate sn (_build_status_meta lbl tstamp cv ev)) "state" = some (.str lbl) := by
  show dGet (dSet (dSet (dSet (dSet sn "state" (.str lbl)) "timestamp" (.str tstamp))
    "response_code" cv) "error" ev) "state" = some (.str lbl)
  rw [dGet_dSet_ne _ _ _ _ (by decide), dGet_dSet_ne _ _ _ _ (by decide),
    dGet_dSet_ne _ _ _ _ (by decide), dGet_dSet_self]

theorem saveMergeValue_status_state (stored : Option Json) (lbl tstamp : String)
    (cv ev : Json) :
    ∃ st, saveMergeValue stored (.obj (_build_status_meta lbl tstamp cv ev)) = .obj st
      ∧ dGet st "state" = some (.str lbl) := by
  cases stored with
  | none => exact ⟨_, rfl, dGet_status_meta_state lbl tstamp cv ev⟩
  | some j =>
    cases j with
    | obj sn => exact ⟨_, rfl, dUpdate_status_meta_state sn lbl tstamp cv ev⟩
    | null => exact ⟨_, rfl, dGet_status_meta_state lbl tstamp cv ev⟩
    | bool b => exact ⟨_, rfl, dGet_status_meta_state lbl tstamp cv ev⟩
    | num n => exact ⟨_, rfl, dGet_status_meta_state lbl tstamp cv ev⟩
    | str sv => exact ⟨_, rfl, dGet_status_meta_state lbl tstamp cv ev⟩
    | arr l => exact ⟨_, rfl, dGet_status_meta_state lbl tstamp cv ev⟩

theorem dGet_finalDoc_recent (M : Dict) (now : String) (serialized status : Dict) :
    dGet (finalSnapshotDoc M now serialized status) "recent_payloads" =
      some (.arr ((Json.obj serialized :: historyOf M).take RECENT_PAYLOAD_LIMIT)) := by
  unfold finalSnapshotDoc
  simp only [List.foldl_cons, List.foldl_nil, saveMergeStep]
  rw [dGet_dSet_ne _ _ _ _ (by decide), dGet_dSet_ne _ _ _ _ (by decide),
    dGet_dSet_self, saveMergeValue_arr]

theorem historyOf_finalDoc (M : Dict) (now : String) (serialized status : Dict) :
    historyOf (finalSnapshotDoc M now serialized status) =
      (Json.obj serialized :: historyOf M).take RECENT_PAYLOAD_LIMIT := by
  unfold historyOf
  rw [dGet_finalDoc_recent]
  rfl

theorem stateOfStatusValue_merge (stored : Option Json) (lbl tstamp : String)
    (cv ev : Json) :
    stateOfStatusValue
      (some (saveMergeValue stored (.obj (_build_status_meta lbl tstamp cv ev)))) =
      some (.str lbl) := by
  obtain ⟨st, hst, hstate⟩ := saveMergeValue_status_state stored lbl tstamp cv ev
  rw [hst]
  exact hstate

theorem statusState_finalDoc (M : Dict) (now : String) (serialized : Dict)
    (lbl tstamp : String) (cv ev : Json) :
    stateOfStatusValue
      (dGet (finalSnapshotDoc M now serialized (_build_status_meta lbl tstamp cv ev))
        "last_crm_status") = some (.str lbl) := by
  unfold finalSnapshotDoc
  simp only [List.foldl_cons, List.foldl_nil, saveMergeStep]
  rw [dGet_dSet_ne _ _ _ _ (by decide), dGet_dSet_self]
  exact stateOfStatusValue_merge _ lbl tstamp cv ev

theorem update_snapshot_ok (f : SnapFile) (now : String) (payload : Dict) (st : Dict)
    (h : SnapFile.loadable f = true) :
    ∃ M, load_snapshot true f = .ok (.json (.obj M), M)
      ∧ _update_snapshot_with_payload true f now payload (some st) =
        (true, dSet payload "crm_status" (.obj st),
          .json (.obj (finalSnapshotDoc M now (dSet payload "crm_status" (.obj st)) st)))
      ∧ histOfFile f = historyOf M := by
  obtain ⟨d, hload, hhist⟩ := load_ok_shape f h
  refine ⟨migrate d, hload, ?_, hhist⟩
  unfold _update_snapshot_with_payload
  rw [hload]
  unfold save_snapshot
  simp only [load_snapshot]
  rfl

/-! ### `_record_crm_delivery` under succeeding and failing persistence -/

theorem record_success (now : String) (s : Session) (p r : Dict) (lbl : String) (w : Bool)
    (h : SnapFile.loadable s.snapshot_file = true) :
    (_record_crm_delivery true now s p r lbl w).crm_snapshot_warning_pending = false
  ∧ (_record_crm_delivery true now s p r lbl w).crm_snapshot_warning_logged = false
  ∧ (_record_crm_delivery true now s p r lbl w).last_crm_status =
      some (_build_status_meta lbl now ((dGet r "response_code").getD .null)
        ((dGet r "error").getD .null))
  ∧ (_record_crm_delivery true now s p r lbl w).last_crm_payload =
      some (dSet (snapshotView p) "crm_status"
        (.obj (_build_status_meta lbl now ((dGet r "response_code").getD .null)
          ((dGet r "error").getD .null))))
  ∧ SnapFile.loadable (_record_crm_delivery true now s p r lbl w).snapshot_file = true
  ∧ statusStateOfFile (_record_crm_delivery true now s p r lbl w).snapshot_file =
      some (.str lbl)
  ∧ snapshotRecent (_record_crm_delivery true now s p r lbl w).snapshot_file =
      (Json.obj (dSet (snapshotView p) "crm_status"
          (.obj (_build_status_meta lbl now ((dGet r "response_code").getD .null)
            ((dGet r "error").getD .null))))
        :: histOfFile s.snapshot_file).take RECENT_PAYLOAD_LIMIT := by
  obtain ⟨M, hload, hupd, hhist⟩ := update_snapshot_ok s.snapshot_file now (snapshotView p)
    (_build_status_meta lbl now ((dGet r "response_code").getD .null)
      ((dGet r "error").getD .null)) h
  simp only [_record_crm_delivery, hupd]
  refine ⟨rfl, rfl, rfl, rfl, rfl, ?_, ?_⟩
  · unfold statusStateOfFile snapshotDoc
    exact statusState_finalDoc M now _ lbl now _ _
  · unfold snapshotRecent snapshotDoc
    rw [hhist]
    exact historyOf_finalDoc M now _ _

theorem record_failure (now : String) (s : Session) (p r : Dict) (lbl : String) (w : Bool) :
    (_record_crm_delivery false now s p r lbl w).last_crm_payload = s.last_crm_payload
  ∧ (_record_crm_delivery false now s p r lbl w).last_crm_status = s.last_crm_status
  ∧ (_record_crm_delivery false now s p r lbl w).crm_snapshot_warning_pending = true
  ∧ (_record_crm_delivery false now s p r lbl w).crm_snapshot_warning_logged = true
  ∧ (_record_crm_delivery false now s p r lbl w).snapshot_file = s.snapshot_file := by
  refine ⟨?_, ?_, ?_, ?_, ?_⟩ <;> simp [_record_crm_delivery, update_snapshot_false]

/-! ### Reductions of `_process_payload` and the worker loop -/

theorem process_offline_eq (cfg : Int) (client : Client) (dk : Bool) (now fid : String)
    (s : Session) (p : Dict) (off : Bool) (h : off = true ∨ s.offline = true) :
    _process_payload cfg client dk now fid s p off =
      _cache_payload dk now s
        (dSet (_generate_payload_id fid p).2 "_crm_retry_attempts"
          (.num (attemptsOf (_generate_payload_id fid p).2))) none "cached" := by
  unfold _process_payload
  rcases h with h | h
  · rw [if_pos (Or.inl h)]
  · rw [if_pos (Or.inr h)]

theorem process_offline_client_indep (cfg : Int) (c₁ c₂ : Client) (dk : Bool)
    (now fid : String) (s : Session) (p : Dict) (off : Bool)
    (h : off = true ∨ s.offline = true) :
    _process_payload cfg c₁ dk now fid s p off = _process_payload cfg c₂ dk now fid s p off := by
  rw [process_offline_eq cfg c₁ dk now fid s p off h, process_offline_eq cfg c₂ dk now fid s p off h]

theorem process_fail_retry_eq (cfg : Int) (client : Client) (dk : Bool) (now fid : String)
    (s : Session) (p : Dict) (off : Bool)
    (hres : statusIsOk (_safe_send_to_crm client (_generate_payload_id fid p).2 (attemptsOf p)) = false)
    (hoffarg : off = false)
    (hoff : s.offline = false)
    (hra : attemptsOf p + 1 < crmMaxRetries cfg) :
    _process_payload cfg client dk now fid s p off =
      _record_crm_delivery dk now
        { s with
          delivery_attempts := s.delivery_attempts ++ [attemptsOf p],
          crm_queue := s.crm_queue ++
            [dSet (dSet (_generate_payload_id fid p).2 "_crm_retry_attempts"
                (.num (attemptsOf p + 1))) "_crm_last_error"
              ((dGet (_safe_send_to_crm client (_generate_payload_id fid p).2 (attemptsOf p))
                "error").getD .null)],
          crm_last_delivery_id := some (.str (_generate_payload_id fid p).1) }
        (dSet (dSet (_generate_payload_id fid p).2 "_crm_retry_attempts"
            (.num (attemptsOf p + 1))) "_crm_last_error"
          ((dGet (_safe_send_to_crm client (_generate_payload_id fid p).2 (attemptsOf p))
            "error").getD .null))
        (_safe_send_to_crm client (_generate_payload_id fid p).2 (attemptsOf p))
        "retrying" true := by
  subst hoffarg
  simp only [_process_payload]
  rw [attemptsOf_genId fid p, hoff]
  rw [if_neg (by simp)]
  rw [hres]
  rw [if_neg (by simp)]
  rw [if_pos ⟨hra, rfl⟩]

theorem process_fail_cache_eq (cfg : Int) (client : Client) (dk : Bool) (now fid : String)
    (s : Session) (p : Dict) (off : Bool)
    (hres : statusIsOk (_safe_send_to_crm client (_generate_payload_id fid p).2 (attemptsOf p)) = false)
    (hoffarg : off = false)
    (hoff : s.offline = false)
    (hra : ¬ (attemptsOf p + 1 < crmMaxRetries cfg)) :
    _process_payload cfg client dk now fid s p off =
      _cache_payload dk now
        { s with delivery_attempts := s.delivery_attempts ++ [attemptsOf p] }
        (dSet (dSet (_generate_payload_id fid p).2 "_crm_retry_attempts"
            (.num (attemptsOf p + 1))) "_crm_last_error"
          ((dGet (_safe_send_to_crm client (_generate_payload_id fid p).2 (attemptsOf p))
            "error").getD .null))
        (some (_safe_send_to_crm client (_generate_payload_id fid p).2 (attemptsOf p)))
        "failed" := by
  subst hoffarg
  simp only [_process_payload]
  rw [attemptsOf_genId fid p, hoff]
  rw [if_neg (by simp)]
  rw [hres]
  rw [if_neg (by simp)]
  rw [if_neg (by simp [hra])]

theorem process_ok_eq (cfg : Int) (client : Client) (dk : Bool) (now fid : String)
    (s : Session) (p : Dict) (off : Bool)
    (hres : statusIsOk (_safe_send_to_crm client (_generate_payload_id fid p).2 (attemptsOf p)) = true)
    (hoffarg : off = false)
    (hoff : s.offline = false) :
    _process_payload cfg client dk now fid s p off =
      _remove_offline_cached_entry
        (_record_crm_delivery dk now
          { s with delivery_attempts := s.delivery_attempts ++ [attemptsOf p] }
          (dPop (dPop (_generate_payload_id fid p).2 "_crm_retry_attempts") "_crm_last_error")
          (_safe_send_to_crm client (_generate_payload_id fid p).2 (attemptsOf p))
          "synced" false)
        (dPop (dPop (_generate_payload_id fid p).2 "_crm_retry_attempts") "_crm_last_error") := by
  subst hoffarg
  simp only [_process_payload]
  rw [attemptsOf_genId fid p, hoff]
  rw [if_neg (by simp)]
  rw [hres]
  rw [if_pos rfl]

theorem process_online_attempts (cfg : Int) (client : Client) (dk : Bool) (now fid : String)
    (s : Session) (p : Dict) (hoff : s.offline = false) :
    (_process_payload cfg client dk now fid s p false).delivery_attempts =
      s.delivery_attempts ++ [attemptsOf p] := by
  cases hres : statusIsOk (_safe_send_to_crm client (_generate_payload_id fid p).2 (attemptsOf p)) with
  | true =>
    rw [process_ok_eq cfg client dk now fid s p false hres rfl hoff, remove_delivery_attempts,
      record_delivery_attempts]
  | false =>
    by_cases hra : attemptsOf p + 1 < crmMaxRetries cfg
    · rw [process_fail_retry_eq cfg client dk now fid s p false hres rfl hoff hra,
        record_delivery_attempts]
    · rw [process_fail_cache_eq cfg client dk now fid s p false hres rfl hoff hra,
        cache_delivery_attempts]

theorem workerSteps_succ_right (cfg : Int) (client : Client) (dk : Bool) (now fid : String) :
    ∀ (n : Nat) (s : Session),
      workerSteps cfg client dk now fid (n + 1) s =
        workerStep cfg client dk now fid (workerSteps cfg client dk now fid n s) := by
  intro n
  induction n with
  | zero => intro s; rfl
  | succ m ih =>
    intro s
    show workerSteps cfg client dk now fid (m + 1) (workerStep cfg client dk now fid s) = _
    rw [ih]
    rfl

theorem workerSteps_empty (cfg : Int) (client : Client) (dk : Bool) (now fid : String)
    (s : Session) (h : s.crm_queue = []) :
    ∀ n, workerSteps cfg client dk now fid n s = s := by
  intro n
  induction n with
  | zero => rfl
  | succ m ih =>
    show workerSteps cfg client dk now fid m (workerStep cfg client dk now fid s) = s
    have hstep : workerStep cfg client dk now fid s = s := by
      unfold workerStep
      rw [h]
    rw [hstep, ih]

/-! ### The bounded retry loop of the worker -/

theorem workerSteps_add (cfg : Int) (client : Client) (dk : Bool) (now fid : String) :
    ∀ (a b : Nat) (s : Session),
      workerSteps cfg client dk now fid (a + b) s =
        workerSteps cfg client dk now fid b (workerSteps cfg client dk now fid a s) := by
  intro a
  induction a with
  | zero =>
    intro b s
    rw [Nat.zero_add]
    rfl
  | succ m ih =>
    intro b s
    rw [show m + 1 + b = (m + b) + 1 by omega]
    show workerSteps cfg client dk now fid (m + b) (workerStep cfg client dk now fid s) = _
    rw [ih]
    rfl

theorem workerSteps_zero (cfg : Int) (client : Client) (dk : Bool) (now fid : String)
    (s : Session) : workerSteps cfg client dk now fid 0 s = s := rfl

theorem workerStep_cons (cfg : Int) (client : Client) (dk : Bool) (now fid : String)
    (s : Session) (p : Dict) (rest : List Dict) (h : s.crm_queue = p :: rest) :
    workerStep cfg client dk now fid s =
      _process_payload cfg client dk now fid { s with crm_queue := rest } p s.offline := by
  unfold workerStep
  rw [h]

theorem process_fail_retry_proj (cfg : Int) (client : Client) (dk : Bool) (now fid : String)
    (s : Session) (p : Dict) (off : Bool)
    (hres : statusIsOk (_safe_send_to_crm client (_generate_payload_id fid p).2 (attemptsOf p)) = false)
    (hoffarg : off = false)
    (hoff : s.offline = false)
    (hra : attemptsOf p + 1 < crmMaxRetries cfg) :
    ∃ pc,
      (_process_payload cfg client dk now fid s p off).crm_queue = s.crm_queue ++ [pc]
    ∧ attemptsOf pc = attemptsOf p + 1
    ∧ (_process_payload cfg client dk now fid s p off).offline = s.offline
    ∧ (_process_payload cfg client dk now fid s p off).ops_log = s.ops_log ++ ["retrying"]
    ∧ (_process_payload cfg client dk now fid s p off).delivery_attempts =
        s.delivery_attempts ++ [attemptsOf p]
    ∧ (_process_payload cfg client dk now fid s p off).offline_cache = s.offline_cache := by
  rw [process_fail_retry_eq cfg client dk now fid s p off hres hoffarg hoff hra]
  refine ⟨dSet (dSet (_generate_payload_id fid p).2 "_crm_retry_attempts"
      (.num (attemptsOf p + 1))) "_crm_last_error"
    ((dGet (_safe_send_to_crm client (_generate_payload_id fid p).2 (attemptsOf p))
      "error").getD .null), ?_, ?_, ?_, ?_, ?_, ?_⟩
  · rw [record_crm_queue]
  · rw [attemptsOf_dSet_ne _ _ _ (by decide), attemptsOf_dSet_num]
  · rw [record_offline]
  · rw [record_ops_log]
  · rw [record_delivery_attempts]
  · rw [record_offline_cache]

theorem process_fail_cache_proj (cfg : Int) (client : Client) (dk : Bool) (now fid : String)
    (s : Session) (p : Dict) (off : Bool)
    (hres : statusIsOk (_safe_send_to_crm client (_generate_payload_id fid p).2 (attemptsOf p)) = false)
    (hoffarg : off = false)
    (hoff : s.offline = false)
    (hra : ¬ (attemptsOf p + 1 < crmMaxRetries cfg)) :
    ∃ e,
      (_process_payload cfg client dk now fid s p off).offline_cache = s.offline_cache ++ [e]
    ∧ attemptsOf e = attemptsOf p + 1
    ∧ (_process_payload cfg client dk now fid s p off).crm_queue = s.crm_queue
    ∧ (_process_payload cfg client dk now fid s p off).offline = s.offline
    ∧ (_process_payload cfg client dk now fid s p off).ops_log = s.ops_log ++ ["failed"]
    ∧ (_process_payload cfg client dk now fid s p off).delivery_attempts =
        s.delivery_attempts ++ [attemptsOf p] := by
  rw [process_fail_cache_eq cfg client dk now fid s p off hres hoffarg hoff hra]
  refine ⟨dSet (dSet (dSet (dSet (dSet (_generate_payload_id fid p).2 "_crm_retry_attempts"
        (.num (attemptsOf p + 1))) "_crm_last_error"
      ((dGet (_safe_send_to_crm client (_generate_payload_id fid p).2 (attemptsOf p))
        "error").getD .null)) "_offline_cached" (.bool true)) "_cached_at" (.str now))
    "_gps" (.str s.gps), ?_, ?_, ?_, ?_, ?_, ?_⟩
  · rw [cache_offline_cache]
  · rw [attemptsOf_dSet_ne _ _ _ (by decide), attemptsOf_dSet_ne _ _ _ (by decide),
      attemptsOf_dSet_ne _ _ _ (by decide), attemptsOf_dSet_ne _ _ _ (by decide),
      attemptsOf_dSet_num]
  · rw [cache_crm_queue]
  · rw [cache_offline]
  · rw [cache_ops_log]
  · rw [cache_delivery_attempts]

theorem retryRunFull (cfg : Int) (client : Client) (dk : Bool) (now fid : String)
    (N : Nat) (hN : crmMaxRetries cfg = (N : Int))
    (herr : ∀ q rc, statusIsOk (_safe_send_to_crm client q rc) = false) :
    ∀ (d : Nat), 1 ≤ d → ∀ (k : Nat), k + d = N → ∀ (s : Session) (q : Dict),
      s.crm_queue = [q] → s.offline = false → attemptsOf q = (k : Int) →
      (workerSteps cfg client dk now fid d s).crm_queue = []
      ∧ (workerSteps cfg client dk now fid d s).offline = false
      ∧ (workerSteps cfg client dk now fid d s).ops_log =
          s.ops_log ++ (List.replicate (d - 1) "retrying" ++ ["failed"])
      ∧ (workerSteps cfg client dk now fid d s).delivery_attempts =
          s.delivery_attempts ++ (List.range' k d).map (fun i => (i : Int))
      ∧ ∃ e, (workerSteps cfg client dk now fid d s).offline_cache =
          s.offline_cache ++ [e] ∧ attemptsOf e = (N : Int) := by
  intro d
  induction d with
  | zero => intro h; exact absurd h (by omega)
  | succ d ih =>
    intro _ k hk s q hq hoff ha
    have hoff2 : ({ s with crm_queue := ([] : List Dict) } : Session).offline = false := hoff
    have hstep : workerSteps cfg client dk now fid (d + 1) s =
        workerSteps cfg client dk now fid d
          (_process_payload cfg client dk now fid { s with crm_queue := [] } q s.offline) := by
      show workerSteps cfg client dk now fid d (workerStep cfg client dk now fid s) = _
      rw [workerStep_cons cfg client dk now fid s q [] hq]
    by_cases hd : d = 0
    · subst hd
      have hra : ¬ (attemptsOf q + 1 < crmMaxRetries cfg) := by
        rw [ha, hN]
        have : k + 1 = N := by omega
        omega
      obtain ⟨e, hce, hae, hqe, hoffe, hopse, hatte⟩ :=
        process_fail_cache_proj cfg client dk now fid { s with crm_queue := [] } q s.offline
          (herr _ _) hoff hoff2 hra
      rw [hstep, workerSteps_zero]
      refine ⟨hqe, by rw [hoffe]; exact hoff, ?_, ?_, ⟨e, hce, ?_⟩⟩
      · rw [hopse]
        simp
      · rw [hatte, ha]
        simp [List.range']
      · rw [hae, ha]
        have : k + 1 = N := by omega
        omega
    · have hra : attemptsOf q + 1 < crmMaxRetries cfg := by
        rw [ha, hN]
        omega
      obtain ⟨pc, hq1, hapc, hoffp, hopsp, hattp, hcachep⟩ :=
        process_fail_retry_proj cfg client dk now fid { s with crm_queue := [] } q s.offline
          (herr _ _) hoff hoff2 hra
      obtain ⟨hqd, hoffd, hopsd, hattd, e, hcached, haed⟩ :=
        ih (by omega) (k + 1) (by omega)
          (_process_payload cfg client dk now fid { s with crm_queue := [] } q s.offline) pc
          (by simpa using hq1) (by rw [hoffp]; exact hoff)
          (by rw [hapc, ha]; push_cast; ring)
      rw [hstep]
      refine ⟨hqd, hoffd, ?_, ?_, ⟨e, ?_, haed⟩⟩
      · rw [hopsd, hopsp]
        have hd1 : d + 1 - 1 = (d - 1) + 1 := by omega
        rw [hd1, List.replicate_succ, List.append_assoc]
        rfl
      · rw [hattd, hattp, ha]
        have hr : List.range' k (d + 1) = k :: List.range' (k + 1) d := rfl
        rw [hr]
        simp
      · rw [hcached, hcachep]

theorem retryRunPartial (cfg : Int) (client : Client) (dk : Bool) (now fid : String)
    (N : Nat) (hN : crmMaxRetries cfg = (N : Int))
    (herr : ∀ q rc, statusIsOk (_safe_send_to_crm client q rc) = false)
    (s : Session) (p : Dict)
    (hq : s.crm_queue = [p]) (hoff : s.offline = false) (hp : attemptsOf p = 0) :
    ∀ j, j < N →
      (workerSteps cfg client dk now fid j s).ops_log = s.ops_log ++ List.replicate j "retrying"
      ∧ (workerSteps cfg client dk now fid j s).offline = false
      ∧ ∃ q, (workerSteps cfg client dk now fid j s).crm_queue = [q]
          ∧ attemptsOf q = (j : Int) := by
  intro j
  induction j with
  | zero =>
    intro _
    exact ⟨by show s.ops_log = _; simp, hoff, p, hq, hp⟩
  | succ j ih =>
    intro hjN
    obtain ⟨hops, hoffj, q, hqj, haj⟩ := ih (by omega)
    have hoff2 : ({ (workerSteps cfg client dk now fid j s) with
        crm_queue := ([] : List Dict) } : Session).offline = false := hoffj
    have hra : attemptsOf q + 1 < crmMaxRetries cfg := by
      rw [haj, hN]
      omega
    obtain ⟨pc, hq1, hapc, hoffp, hopsp, hattp, hcachep⟩ :=
      process_fail_retry_proj cfg client dk now fid
        { (workerSteps cfg client dk now fid j s) with crm_queue := [] } q
        (workerSteps cfg client dk now fid j s).offline
        (herr _ _) hoffj hoff2 hra
    have hstep : workerSteps cfg client dk now fid (j + 1) s =
        _process_payload cfg client dk now fid
          { (workerSteps cfg client dk now fid j s) with crm_queue := [] } q
          (workerSteps cfg client dk now fid j s).offline := by
      rw [workerSteps_succ_right]
      exact workerStep_cons cfg client dk now fid _ q [] hqj
    rw [hstep]
    refine ⟨?_, by rw [hoffp]; exact hoffj, pc, by simpa using hq1, ?_⟩
    · rw [hopsp]
      show (workerSteps cfg client dk now fid j s).ops_log ++ ["retrying"] = _
      rw [hops, List.append_assoc, ← List.replicate_succ' j "retrying"]
    · rw [hapc, haj]
      push_cast
      ring

/-! ### Behaviour of the offline-cache flush loop -/

theorem flushLoop_attempts (cfg : Int) (client : Client) (dk : Bool) (now : String) :
    ∀ (l : List Dict) (s : Session) (fl : Nat) (rem : List Dict),
      (flushLoop cfg client dk now l s fl rem).2.1.delivery_attempts =
        s.delivery_attempts ++ l.map attemptsOf := by
  intro l
  induction l with
  | nil =>
    intro s fl rem
    simp [flushLoop]
  | cons e rest ih =>
    intro s fl rem
    simp only [flushLoop]
    by_cases hok : statusIsOk (_safe_send_to_crm client e (attemptsOf e))
    · rw [if_pos hok, ih, record_delivery_attempts]
      simp
    · rw [if_neg (by simpa using hok)]
      by_cases hra : attemptsOf e + 1 ≥ crmMaxRetries cfg
      · rw [if_pos hra, ih, record_delivery_attempts]
        simp
      · rw [if_neg hra, ih, record_delivery_attempts]
        simp

theorem flushLoop_err (cfg : Int) (client : Client) (dk : Bool) (now : String)
    (herr : ∀ q rc, statusIsOk (_safe_send_to_crm client q rc) = false) :
    ∀ (l : List Dict) (s : Session) (fl : Nat) (rem : List Dict),
      (flushLoop cfg client dk now l s fl rem).1 = fl
      ∧ (flushLoop cfg client dk now l s fl rem).2.2 =
          rem ++ l.filterMap (fun e =>
            if attemptsOf e + 1 < crmMaxRetries cfg then
              some (dSet (dSet e "_crm_retry_attempts" (.num (attemptsOf e + 1)))
                "_crm_last_error"
                ((dGet (_safe_send_to_crm client e (attemptsOf e)) "error").getD .null))
            else none)
      ∧ (flushLoop cfg client dk now l s fl rem).2.1.ops_log =
          s.ops_log ++ List.replicate l.length "failed" := by
  intro l
  induction l with
  | nil =>
    intro s fl rem
    refine ⟨rfl, by simp [flushLoop], by simp [flushLoop]⟩
  | cons e rest ih =>
    intro s fl rem
    simp only [flushLoop]
    rw [if_neg (by simp [herr])]
    by_cases hra : attemptsOf e + 1 ≥ crmMaxRetries cfg
    · rw [if_pos hra]
      obtain ⟨h1, h2, h3⟩ := ih (_record_crm_delivery dk now
        { s with delivery_attempts := s.delivery_attempts ++ [attemptsOf e] }
        (dSet (dSet e "_crm_retry_attempts" (.num (attemptsOf e + 1))) "_crm_last_error"
          ((dGet (_safe_send_to_crm client e (attemptsOf e)) "error").getD .null))
        (_safe_send_to_crm client e (attemptsOf e)) "failed" false) fl rem
      refine ⟨h1, ?_, ?_⟩
      · rw [h2, List.filterMap_cons]
        rw [if_neg (by omega : ¬ (attemptsOf e + 1 < crmMaxRetries cfg))]
      · rw [h3, record_ops_log]
        simp [List.replicate_succ]
    · rw [if_neg hra]
      obtain ⟨h1, h2, h3⟩ := ih (_record_crm_delivery dk now
        { s with delivery_attempts := s.delivery_attempts ++ [attemptsOf e] }
        (dSet (dSet e "_crm_retry_attempts" (.num (attemptsOf e + 1))) "_crm_last_error"
          ((dGet (_safe_send_to_crm client e (attemptsOf e)) "error").getD .null))
        (_safe_send_to_crm client e (attemptsOf e)) "failed" false) fl
        (rem ++ [dSet (dSet e "_crm_retry_attempts" (.num (attemptsOf e + 1)))
          "_crm_last_error"
          ((dGet (_safe_send_to_crm client e (attemptsOf e)) "error").getD .null)])
      refine ⟨h1, ?_, ?_⟩
      · rw [h2, List.filterMap_cons]
        rw [if_pos (by omega : attemptsOf e + 1 < crmMaxRetries cfg)]
        simp
      · rw [h3, record_ops_log]
        simp [List.replicate_succ]

theorem flushLoop_ok (cfg : Int) (client : Client) (now : String)
    (hok : ∀ q rc, statusIsOk (_safe_send_to_crm client q rc) = true) :
    ∀ (l : List Dict) (s : Session) (fl : Nat) (rem : List Dict),
      SnapFile.loadable s.snapshot_file = true →
      (flushLoop cfg client true now l s fl rem).1 = fl + l.length
      ∧ (flushLoop cfg client true now l s fl rem).2.2 = rem
      ∧ SnapFile.loadable (flushLoop cfg client true now l s fl rem).2.1.snapshot_file = true
      ∧ (l = [] → (flushLoop cfg client true now l s fl rem).2.1 = s)
      ∧ (l ≠ [] → statusStateOfFile
          (flushLoop cfg client true now l s fl rem).2.1.snapshot_file =
            some (.str "synced")) := by
  intro l
  induction l with
  | nil =>
    intro s fl rem hload
    exact ⟨rfl, rfl, hload, fun _ => rfl, fun h => absurd rfl h⟩
  | cons e rest ih =>
    intro s fl rem hload
    simp only [flushLoop]
    rw [if_pos (hok _ _)]
    have hload₀ : SnapFile.loadable
        ({ s with delivery_attempts := s.delivery_attempts ++ [attemptsOf e] }
          : Session).snapshot_file = true := hload
    obtain ⟨hpend, hlog, hstat, hpay, hloadable, hstate, hrecent⟩ :=
      record_success now
        { s with delivery_attempts := s.delivery_attempts ++ [attemptsOf e] }
        (dPop (dPop (dPop (dPop (dPop e "_crm_retry_attempts") "_crm_last_error")
          "_offline_cached") "_cached_at") "_gps")
        (_safe_send_to_crm client e (attemptsOf e)) "synced" false hload₀
    obtain ⟨hc, hr, hl, hnil, hne⟩ := ih _ (fl + 1) rem hloadable
    refine ⟨by rw [hc, List.length_cons]; omega, hr, hl, by simp, ?_⟩
    intro _
    by_cases hrest : rest = []
    · subst hrest
      rw [hnil rfl]
      exact hstate
    · exact hne hrest



theorem dGet_none_not_mem (d : Dict) (k : String) (h : dGet d k = none) :
    ∀ kv ∈ d, kv.1 ≠ k := by
  induction d with
  | nil => intro kv hkv; simp at hkv
  | cons kv₀ rest ih =>
    obtain ⟨k₀, v₀⟩ := kv₀
    intro kv hkv
    rcases List.mem_cons.mp hkv with hhead | htail
    · subst hhead
      intro hk
      simp only at hk
      simp [dGet, hk] at h
    · by_cases hk₀ : k₀ = k
      · simp [dGet, hk₀] at h
      · exact ih (by simpa [dGet, hk₀] using h) kv htail

theorem mem_of_dGet (d : Dict) (k : String) (v : Json) (h : dGet d k = some v) :
    (k, v) ∈ d := by
  induction d with
  | nil => simp [dGet] at h
  | cons kv₀ rest ih =>
    obtain ⟨k₀, v₀⟩ := kv₀
    by_cases hk₀ : k₀ = k
    · subst hk₀
      simp [dGet] at h
      simp [h]
    · simp only [dGet, if_neg hk₀] at h
      exact List.mem_cons_of_mem _ (ih h)

theorem mergeVal_nonobj (v w : Json) (h : Json.isObj v = false ∨ Json.isObj w = false) :
    mergeVal v (some w) = w := by
  cases v <;> cases w <;> first
    | rfl
    | (exfalso; simp [Json.isObj] at h)

theorem httpErrorValue_eq_claimed (jsonBody : Option Json) (text : String) (code : Int) :
    httpErrorValue jsonBody text code = claimedErrorValue jsonBody text code := by
  cases jsonBody with
  | none =>
    unfold httpErrorValue claimedErrorValue
    by_cases ht : text = ""
    · simp [ht, Json.truthy]
    · simp [ht, Json.truthy]
  | some j =>
    cases j with
    | obj d =>
      unfold httpErrorValue claimedErrorValue
      cases he : dGet d "error" with
      | none => simp [he, Json.truthy]
      | some e => simp [he]
    | null => simp [httpErrorValue, claimedErrorValue, Json.truthy]
    | bool b => simp [httpErrorValue, claimedErrorValue, Json.truthy]
    | num n => simp [httpErrorValue, claimedErrorValue, Json.truthy]
    | str sv => simp [httpErrorValue, claimedErrorValue, Json.truthy]
    | arr l => simp [httpErrorValue, claimedErrorValue, Json.truthy]




/-! ### Claim theorems -/

/-- C2 counterexample: the claim says the transmitted body retains the
payload ID key, but `send_to_crm` strips every `_crm_`-prefixed key
including `_crm_payload_id`; the filter the spec describes would keep
it. -/
theorem c2_counterexample :
    dContains exPayloadWithId "_crm_payload_id" = true
  ∧ transmittedBody exPayloadWithId = [("note", .str "n")]
  ∧ dGet (transmittedBody exPayloadWithId) "_crm_payload_id" = none
  ∧ specTransmittedBody exPayloadWithId = exPayloadWithId := by
  exact ⟨rfl, rfl, rfl, rfl⟩

/-- C2 (amended): the HTTP body the Delivery Client transmits equals the
payload with every key prefixed `_crm_` removed — including the payload
ID key `_crm_payload_id` — and any `crm_status` block removed; every
other entry is transmitted unchanged. -/
theorem c2_transmitted_body (p : Dict) (k : String) :
    dGet (transmittedBody p) k =
      (if pyStartsWith k "_crm_" || k == "crm_status" then none else dGet p k)
  ∧ dContains (transmittedBody p) "_crm_payload_id" = false := by
  have hmain : ∀ k', dGet (transmittedBody p) k' =
      (if pyStartsWith k' "_crm_" || k' == "crm_status" then none else dGet p k') := by
    intro k'
    unfold transmittedBody
    rw [dGet_filter_key (fun x => !(pyStartsWith x "_crm_" || x == "crm_status")) p k']
    cases h : (pyStartsWith k' "_crm_" || k' == "crm_status") <;> simp [h]
  refine ⟨hmain k, ?_⟩
  unfold dContains
  rw [hmain "_crm_payload_id"]
  rfl

/-- C6 counterexample: for a non-2xx response whose body parses to a JSON
object without an `error` field, the source produces the fallback string
`HTTP <code>` — neither a JSON `error` field (there is none) nor the raw
body text. -/
theorem c6_counterexample :
    send_to_crm (.response 500 (some (.obj [])) "raw") =
      [("status", .str "error"), ("response_code", .num 500), ("error", .str "HTTP 500")]
  ∧ dGet ([] : Dict) "error" = none
  ∧ Json.str "HTTP 500" ≠ Json.str "raw" := by
  refine ⟨rfl, rfl, ?_⟩
  intro h
  injection h with h'
  exact absurd h' (by decide)

/-- C6 (amended): the delivery call never raises to its caller and its
outcomes are fully normalized: a 2xx response yields `ok` with the code
and parsed body; a non-2xx response yields `error` with the code and an
error value that is the truthy JSON `error` field of an object body, else
the non-empty raw body text when the body is not valid JSON, else
`HTTP <code>`; a transport exception yields `error` with the code of any
response attached to the exception (none for DNS/connect/timeout) and the
exception message; and the caller-side guard converts any raised
exception into the same `error` shape. -/
theorem c6_outcome_normalisation (code : Int) (jsonBody : Option Json) (text msg : String)
    (codeOpt : Option Int) (client : Client) (p : Dict) (rc : Int) :
    (200 ≤ code ∧ code < 300 →
      send_to_crm (.response code jsonBody text) =
        [("status", .str "ok"), ("response_code", .num code), ("body", jsonBody.getD .null)])
  ∧ (¬ (200 ≤ code ∧ code < 300) →
      send_to_crm (.response code jsonBody text) =
        [("status", .str "error"), ("response_code", .num code),
          ("error", claimedErrorValue jsonBody text code)])
  ∧ send_to_crm (.exc codeOpt msg) =
      [("status", .str "error"), ("response_code", optCodeJson codeOpt), ("error", .str msg)]
  ∧ (∀ m, client p rc = .raises m →
      _safe_send_to_crm client p rc =
        [("status", .str "error"), ("response_code", .null), ("error", .str m)])
  ∧ (∀ d, client p rc = .returns d → _safe_send_to_crm client p rc = d) := by
  refine ⟨?_, ?_, rfl, ?_, ?_⟩
  · intro h
    simp only [send_to_crm]
    rw [if_pos h]
  · intro h
    simp only [send_to_crm]
    rw [if_neg h, httpErrorValue_eq_claimed]
  · intro m hm
    unfold _safe_send_to_crm
    rw [hm]
  · intro d hd
    unfold _safe_send_to_crm
    rw [hd]

/-- C6 witness: the amended outcome shapes at concrete inputs — a 503
with unparsable body, a 201 success, and a client that raises. -/
theorem c6_witness :
    send_to_crm (.response 503 none "oops") =
      [("status", .str "error"), ("response_code", .num 503),
        ("error", claimedErrorValue none "oops" 503)]
  ∧ send_to_crm (.response 201 (some (.obj [])) "") =
      [("status", .str "ok"), ("response_code", .num 201),
        ("body", (some (Json.obj [])).getD .null)]
  ∧ _safe_send_to_crm exRaisesClient exPayload 0 =
      [("status", .str "error"), ("response_code", .null), ("error", .str "boom")] :=
  ⟨(c6_outcome_normalisation 503 none "oops" "m" none exRaisesClient exPayload 0).2.1
      (by omega),
    (c6_outcome_normalisation 201 (some (.obj [])) "" "m" none exRaisesClient exPayload 0).1
      (by omega),
    (c6_outcome_normalisation 503 none "oops" "m" none exRaisesClient exPayload 0).2.2.2.1
      "boom" rfl⟩

/-- C9: the effective maximum-retries value is `max(1, configured)`, hence
at least 1; every online payload triggers exactly one delivery attempt per
pass through the worker (so at least one overall), and the flush path
makes one attempt per cached entry, for any configured value. -/
theorem c9_effective_max_retries :
    (∀ c : Int, crmMaxRetries c = max 1 c ∧ 1 ≤ crmMaxRetries c)
  ∧ (∀ (cfg : Int) (client : Client) (dk : Bool) (now fid : String) (s : Session) (p : Dict),
      s.offline = false →
      (_process_payload cfg client dk now fid s p false).delivery_attempts.length =
        s.delivery_attempts.length + 1)
  ∧ (∀ (cfg : Int) (client : Client) (dk : Bool) (now : String) (s : Session),
      s.offline = false →
      (flush_offline_cache cfg client dk now s).2.delivery_attempts.length =
        s.delivery_attempts.length + s.offline_cache.length) := by
  refine ⟨fun c => ⟨rfl, le_max_left 1 c⟩, ?_, ?_⟩
  · intro cfg client dk now fid s p hoff
    rw [process_online_attempts cfg client dk now fid s p hoff]
    simp
  · intro cfg client dk now s hoff
    simp only [flush_offline_cache]
    rw [if_neg (by simp [hoff])]
    have hatt := flushLoop_attempts cfg client dk now s.offline_cache s 0 []
    by_cases hfl : (flushLoop cfg client dk now s.offline_cache s 0 []).1 ≠ 0
    · rw [if_pos hfl]
      show ((flushLoop cfg client dk now s.offline_cache s 0 []).2.1.delivery_attempts).length = _
      rw [hatt]
      simp
    · rw [if_neg hfl]
      show ((flushLoop cfg client dk now s.offline_cache s 0 []).2.1.delivery_attempts).length = _
      rw [hatt]
      simp

/-- C9 witness: with a configured value of `0` the effective ceiling is
still `1`, and an online payload in a fresh session gets one attempt. -/
theorem c9_witness :
    crmMaxRetries 0 = max 1 0
  ∧ 1 ≤ crmMaxRetries 0
  ∧ (_process_payload 0 exErrClient true "NOW" "FRESH" exSessionBase exPayload
      false).delivery_attempts.length = exSessionBase.delivery_attempts.length + 1 :=
  ⟨(c9_effective_max_retries.1 0).1, (c9_effective_max_retries.1 0).2,
    c9_effective_max_retries.2.1 0 exErrClient true "NOW" "FRESH" exSessionBase exPayload rfl⟩




/-- C4 counterexample: a snapshot file containing the valid JSON document
`[]` (not an object) makes `load_snapshot` raise — the migration loop hits
`snap["cached_records"] = []` on a list, an uncaught `TypeError` — so the
load does not "never raise". -/
theorem c4_counterexample :
    load_snapshot true (.json (.arr [])) = .error ()
  ∧ SnapFile.loadable (.json (.arr [])) = false := ⟨rfl, rfl⟩

/-- C4 (amended): loading never raises provided the snapshot file is
missing, unreadable, empty, not valid JSON, or parses to a JSON object
(a valid-JSON non-object document raises); in all those cases the
returned document contains every default top-level key, keys outside the
base schema are untouched, top-level values present in the file are
unchanged unless both the default and the stored value are objects, in
which case the stored object keeps all of its own entries and only gains
the missing default nested keys. -/
theorem c4_load_snapshot_migration (f : SnapFile) (h : SnapFile.loadable f = true) :
    ∃ fd doc, load_snapshot true f = .ok (fd, doc)
  ∧ (∀ kv ∈ BASE_SNAPSHOT, dContains doc kv.1 = true)
  ∧ (∀ d, f = SnapFile.json (.obj d) →
      (∀ k, dGet BASE_SNAPSHOT k = none → dGet doc k = dGet d k)
      ∧ (∀ k v, dGet BASE_SNAPSHOT k = some v → dGet d k = none → dGet doc k = some v)
      ∧ (∀ k v w, dGet BASE_SNAPSHOT k = some v → dGet d k = some w →
          (Json.isObj v = false ∨ Json.isObj w = false) → dGet doc k = some w)
      ∧ (∀ k bn sn, dGet BASE_SNAPSHOT k = some (.obj bn) → dGet d k = some (.obj sn) →
          ∃ mn, dGet doc k = some (.obj mn)
            ∧ (∀ nk nv, dGet sn nk = some nv → dGet mn nk = some nv)
            ∧ (∀ nkv ∈ bn, dContains mn nkv.1 = true))) := by
  have hnd : (BASE_SNAPSHOT.map Prod.fst).Nodup := by decide
  have hprops : ∀ d : Dict,
      (∀ k, dGet BASE_SNAPSHOT k = none → dGet (migrate d) k = dGet d k)
      ∧ (∀ k v, dGet BASE_SNAPSHOT k = some v → dGet d k = none → dGet (migrate d) k = some v)
      ∧ (∀ k v w, dGet BASE_SNAPSHOT k = some v → dGet d k = some w →
          (Json.isObj v = false ∨ Json.isObj w = false) → dGet (migrate d) k = some w)
      ∧ (∀ k bn sn, dGet BASE_SNAPSHOT k = some (.obj bn) → dGet d k = some (.obj sn) →
          ∃ mn, dGet (migrate d) k = some (.obj mn)
            ∧ (∀ nk nv, dGet sn nk = some nv → dGet mn nk = some nv)
            ∧ (∀ nkv ∈ bn, dContains mn nkv.1 = true)) := by
    intro d
    refine ⟨?_, ?_, ?_, ?_⟩
    · intro k hk
      exact migrateFold_get_not_mem BASE_SNAPSHOT d k (dGet_none_not_mem _ _ hk)
    · intro k v hb hd
      unfold migrate
      rw [migrateFold_get_mem BASE_SNAPSHOT d k v hnd (mem_of_dGet _ _ _ hb), hd]
      rfl
    · intro k v w hb hd hno
      unfold migrate
      rw [migrateFold_get_mem BASE_SNAPSHOT d k v hnd (mem_of_dGet _ _ _ hb), hd,
        mergeVal_nonobj v w hno]
    · intro k bn sn hb hd
      unfold migrate
      rw [migrateFold_get_mem BASE_SNAPSHOT d k (.obj bn) hnd (mem_of_dGet _ _ _ hb), hd]
      refine ⟨_, rfl, ?_, ?_⟩
      · intro nk nv hnv
        exact sdFold_get_some bn sn nk nv hnv
      · intro nkv hnkv
        obtain ⟨nk, nv⟩ := nkv
        exact sdFold_contains bn sn nk nv hnkv
  cases f with
  | absent =>
    refine ⟨_, migrate BASE_SNAPSHOT, rfl,
      fun kv hkv => migrate_contains BASE_SNAPSHOT kv hkv, ?_⟩
    intro d hf
    cases hf
  | corrupt =>
    refine ⟨_, migrate [], rfl, fun kv hkv => migrate_contains [] kv hkv, ?_⟩
    intro d hf
    cases hf
  | empty =>
    refine ⟨_, migrate [], rfl, fun kv hkv => migrate_contains [] kv hkv, ?_⟩
    intro d hf
    cases hf
  | json j =>
    cases j with
    | obj d =>
      refine ⟨_, migrate d, rfl, fun kv hkv => migrate_contains d kv hkv, ?_⟩
      intro d' hf
      have hd' : d' = d := by
        injection hf with h1
        injection h1 with h2
        exact h2.symm
      rw [hd']
      exact hprops d
    | null => simp [SnapFile.loadable] at h
    | bool b => simp [SnapFile.loadable] at h
    | num n => simp [SnapFile.loadable] at h
    | str sv => simp [SnapFile.loadable] at h
    | arr l => simp [SnapFile.loadable] at h

/-- C4 witness: the amended claim instantiated at a snapshot file whose
document stores a non-default value and misses nested status keys. -/
theorem c4_witness :
    ∃ fd doc,
      load_snapshot true
        (.json (.obj [("custom", .num 7), ("last_crm_status", .obj [("state", .str "synced")])]))
        = .ok (fd, doc)
    ∧ (∀ kv ∈ BASE_SNAPSHOT, dContains doc kv.1 = true)
    ∧ (∀ d, (SnapFile.json (.obj [("custom", .num 7),
          ("last_crm_status", .obj [("state", .str "synced")])]) : SnapFile) =
            SnapFile.json (.obj d) →
        (∀ k, dGet BASE_SNAPSHOT k = none → dGet doc k = dGet d k)
        ∧ (∀ k v, dGet BASE_SNAPSHOT k = some v → dGet d k = none → dGet doc k = some v)
        ∧ (∀ k v w, dGet BASE_SNAPSHOT k = some v → dGet d k = some w →
            (Json.isObj v = false ∨ Json.isObj w = false) → dGet doc k = some w)
        ∧ (∀ k bn sn, dGet BASE_SNAPSHOT k = some (.obj bn) → dGet d k = some (.obj sn) →
            ∃ mn, dGet doc k = some (.obj mn)
              ∧ (∀ nk nv, dGet sn nk = some nv → dGet mn nk = some nv)
              ∧ (∀ nkv ∈ bn, dContains mn nkv.1 = true))) :=
  c4_load_snapshot_migration
    (.json (.obj [("custom", .num 7), ("last_crm_status", .obj [("state", .str "synced")])]))
    rfl

/-- C10: whenever a load completes, the merged document has been written
back: the on-disk file afterwards is exactly the JSON object returned,
which contains every default key; a missing file is seeded with the
default schema, and a corrupt file is repaired on disk to the default
schema. -/
theorem c10_load_write_back (f fd : SnapFile) (doc : Dict)
    (h : load_snapshot true f = .ok (fd, doc)) :
    fd = .json (.obj doc)
  ∧ (∀ kv ∈ BASE_SNAPSHOT, dContains doc kv.1 = true)
  ∧ load_snapshot true .absent = .ok (.json (.obj BASE_SNAPSHOT), BASE_SNAPSHOT)
  ∧ load_snapshot true .corrupt = .ok (.json (.obj BASE_SNAPSHOT), BASE_SNAPSHOT) := by
  have hcontains : ∀ d : Dict, ∀ kv ∈ BASE_SNAPSHOT, dContains (migrate d) kv.1 = true :=
    fun d kv hkv => migrate_contains d kv hkv
  cases f with
  | absent =>
    rw [show load_snapshot true SnapFile.absent =
        Except.ok (ε := Unit) (SnapFile.json (.obj (migrate BASE_SNAPSHOT)),
          migrate BASE_SNAPSHOT) from rfl] at h
    simp only [Except.ok.injEq, Prod.mk.injEq] at h
    obtain ⟨h1, h2⟩ := h
    subst h2
    exact ⟨h1.symm, hcontains BASE_SNAPSHOT, rfl, rfl⟩
  | corrupt =>
    rw [show load_snapshot true SnapFile.corrupt =
        Except.ok (ε := Unit) (SnapFile.json (.obj (migrate [])), migrate []) from rfl] at h
    simp only [Except.ok.injEq, Prod.mk.injEq] at h
    obtain ⟨h1, h2⟩ := h
    subst h2
    exact ⟨h1.symm, hcontains [], rfl, rfl⟩
  | empty =>
    rw [show load_snapshot true SnapFile.empty =
        Except.ok (ε := Unit) (SnapFile.json (.obj (migrate [])), migrate []) from rfl] at h
    simp only [Except.ok.injEq, Prod.mk.injEq] at h
    obtain ⟨h1, h2⟩ := h
    subst h2
    exact ⟨h1.symm, hcontains [], rfl, rfl⟩
  | json j =>
    cases j with
    | obj d =>
      rw [show load_snapshot true (SnapFile.json (.obj d)) =
          Except.ok (ε := Unit) (SnapFile.json (.obj (migrate d)), migrate d) from rfl] at h
      simp only [Except.ok.injEq, Prod.mk.injEq] at h
      obtain ⟨h1, h2⟩ := h
      subst h2
      exact ⟨h1.symm, hcontains d, rfl, rfl⟩
    | null => simp [load_snapshot] at h
    | bool b => simp [load_snapshot] at h
    | num n => simp [load_snapshot] at h
    | str sv => simp [load_snapshot] at h
    | arr l => simp [load_snapshot] at h

/-- C10 witness: a corrupt snapshot file is repaired on disk to the
default schema, and the write-back property holds there. -/
theorem c10_witness :
    SnapFile.json (.obj BASE_SNAPSHOT) = .json (.obj BASE_SNAPSHOT)
  ∧ (∀ kv ∈ BASE_SNAPSHOT, dContains BASE_SNAPSHOT kv.1 = true)
  ∧ load_snapshot true .absent = .ok (.json (.obj BASE_SNAPSHOT), BASE_SNAPSHOT)
  ∧ load_snapshot true .corrupt = .ok (.json (.obj BASE_SNAPSHOT), BASE_SNAPSHOT) :=
  c10_load_write_back .corrupt (.json (.obj BASE_SNAPSHOT)) BASE_SNAPSHOT rfl



/-- C1 counterexample: flushing while online with a retry ceiling of 1 and
an always-failing client: the cached entry reaches the ceiling and is not
written back — the offline cache is empty after the flush, so the claim's
"written back into the remaining offline-cache set regardless" is false. -/
theorem c1_counterexample :
    exSessionCeiling.offline = false
  ∧ exSessionCeiling.offline_cache ≠ []
  ∧ (flush_offline_cache 1 exErrClient true "NOW" exSessionCeiling).2.offline_cache = [] := by
  refine ⟨rfl, ?_, rfl⟩
  exact List.cons_ne_nil _ _

/-- C1 (amended): for a flush while offline mode is off with a delivery
client failing every attempt, nothing counts as flushed, each entry's
attempt counter is incremented and the entry is written back into the
remaining offline-cache set only when the incremented counter is below the
retry ceiling; an entry at or above the ceiling is recorded `failed` and
dropped from the cache.  One `failed` event is logged per entry. -/
theorem c1_flush_writeback (cfg : Int) (client : Client) (dk : Bool) (now : String)
    (s : Session) (hoff : s.offline = false)
    (herr : ∀ q rc, statusIsOk (_safe_send_to_crm client q rc) = false) :
    (flush_offline_cache cfg client dk now s).1 = 0
  ∧ (flush_offline_cache cfg client dk now s).2.offline_cache =
      s.offline_cache.filterMap (fun e =>
        if attemptsOf e + 1 < crmMaxRetries cfg then
          some (dSet (dSet e "_crm_retry_attempts" (.num (attemptsOf e + 1)))
            "_crm_last_error"
            ((dGet (_safe_send_to_crm client e (attemptsOf e)) "error").getD .null))
        else none)
  ∧ (flush_offline_cache cfg client dk now s).2.ops_log =
      s.ops_log ++ List.replicate s.offline_cache.length "failed" := by
  obtain ⟨h1, h2, h3⟩ := flushLoop_err cfg client dk now herr s.offline_cache s 0 []
  simp only [flush_offline_cache]
  rw [if_neg (by simp [hoff]), h1]
  rw [if_neg (fun hh => hh rfl)]
  refine ⟨rfl, ?_, h3⟩
  rw [h2]
  simp

/-- C1 witness: the amended flush behaviour at a concrete session with one
cached entry and a retry ceiling of 1. -/
theorem c1_witness :
    (flush_offline_cache 1 exErrClient true "NOW" exSessionCeiling).1 = 0
  ∧ (flush_offline_cache 1 exErrClient true "NOW" exSessionCeiling).2.offline_cache =
      exSessionCeiling.offline_cache.filterMap (fun e =>
        if attemptsOf e + 1 < crmMaxRetries 1 then
          some (dSet (dSet e "_crm_retry_attempts" (.num (attemptsOf e + 1)))
            "_crm_last_error"
            ((dGet (_safe_send_to_crm exErrClient e (attemptsOf e)) "error").getD .null))
        else none)
  ∧ (flush_offline_cache 1 exErrClient true "NOW" exSessionCeiling).2.ops_log =
      exSessionCeiling.ops_log ++ List.replicate exSessionCeiling.offline_cache.length "failed" :=
  c1_flush_writeback 1 exErrClient true "NOW" exSessionCeiling rfl (fun _ _ => rfl)

/-- C5 counterexample: delivering the same payload (ID `abc`) twice leaves
two entries with that Payload ID in the saved `recent_payloads` — the list
is not de-duplicated by Payload ID. -/
theorem c5_counterexample :
    countPayloadId (snapshotRecent exTwiceSession.snapshot_file) "abc" = 2 ∧ 1 < 2 :=
  ⟨rfl, by omega⟩

/-- C5 (amended): every delivery record saves a snapshot whose
`recent_payloads` is the newly delivered payload (with its status block)
prepended to the previous history and capped at 5 entries, most recent
first with the new payload as head; entries are not de-duplicated, so two
entries may share a Payload ID. -/
theorem c5_recent_payloads (now : String) (s : Session) (p r : Dict) (lbl : String)
    (w : Bool) (h : SnapFile.loadable s.snapshot_file = true) :
    snapshotRecent (_record_crm_delivery true now s p r lbl w).snapshot_file =
      (Json.obj (dSet (snapshotView p) "crm_status"
          (.obj (_build_status_meta lbl now ((dGet r "response_code").getD .null)
            ((dGet r "error").getD .null))))
        :: histOfFile s.snapshot_file).take RECENT_PAYLOAD_LIMIT
  ∧ (snapshotRecent (_record_crm_delivery true now s p r lbl w).snapshot_file).length ≤
      RECENT_PAYLOAD_LIMIT
  ∧ (snapshotRecent (_record_crm_delivery true now s p r lbl w).snapshot_file).head? =
      some (Json.obj (dSet (snapshotView p) "crm_status"
        (.obj (_build_status_meta lbl now ((dGet r "response_code").getD .null)
          ((dGet r "error").getD .null))))) := by
  obtain ⟨_, _, _, _, _, _, hrecent⟩ := record_success now s p r lbl w h
  refine ⟨hrecent, ?_, ?_⟩
  · rw [hrecent]
    exact List.length_take_le _ _
  · rw [hrecent]
    rfl

/-- C5 witness: the amended snapshot-history behaviour at a concrete
delivery over a fresh snapshot. -/
theorem c5_witness :
    snapshotRecent
      (_record_crm_delivery true "NOW" exSessionBase exPayloadWithId exOkResult
        "synced" false).snapshot_file =
      (Json.obj (dSet (snapshotView exPayloadWithId) "crm_status"
          (.obj (_build_status_meta "synced" "NOW"
            ((dGet exOkResult "response_code").getD .null)
            ((dGet exOkResult "error").getD .null))))
        :: histOfFile exSessionBase.snapshot_file).take RECENT_PAYLOAD_LIMIT
  ∧ (snapshotRecent (_record_crm_delivery true "NOW" exSessionBase exPayloadWithId
      exOkResult "synced" false).snapshot_file).length ≤ RECENT_PAYLOAD_LIMIT
  ∧ (snapshotRecent (_record_crm_delivery true "NOW" exSessionBase exPayloadWithId
      exOkResult "synced" false).snapshot_file).head? =
      some (Json.obj (dSet (snapshotView exPayloadWithId) "crm_status"
        (.obj (_build_status_meta "synced" "NOW"
          ((dGet exOkResult "response_code").getD .null)
          ((dGet exOkResult "error").getD .null))))) :=
  c5_recent_payloads "NOW" exSessionBase exPayloadWithId exOkResult "synced" false rfl

/-- C7: a failing snapshot write leaves the in-memory last-payload and
last-status untouched and raises the sticky degraded flag (pending and
logged); the next delivery whose snapshot write succeeds clears both flags
and updates the in-memory fields. -/
theorem c7_snapshot_degraded (now now2 : String) (s : Session) (p r p2 r2 : Dict)
    (lbl lbl2 : String) (w w2 : Bool)
    (h : SnapFile.loadable s.snapshot_file = true) :
    (_record_crm_delivery false now s p r lbl w).last_crm_payload = s.last_crm_payload
  ∧ (_record_crm_delivery false now s p r lbl w).last_crm_status = s.last_crm_status
  ∧ (_record_crm_delivery false now s p r lbl w).crm_snapshot_warning_pending = true
  ∧ (_record_crm_delivery false now s p r lbl w).crm_snapshot_warning_logged = true
  ∧ (_record_crm_delivery true now2 (_record_crm_delivery false now s p r lbl w)
      p2 r2 lbl2 w2).crm_snapshot_warning_pending = false
  ∧ (_record_crm_delivery true now2 (_record_crm_delivery false now s p r lbl w)
      p2 r2 lbl2 w2).crm_snapshot_warning_logged = false
  ∧ (_record_crm_delivery true now2 (_record_crm_delivery false now s p r lbl w)
      p2 r2 lbl2 w2).last_crm_status =
      some (_build_status_meta lbl2 now2 ((dGet r2 "response_code").getD .null)
        ((dGet r2 "error").getD .null))
  ∧ (_record_crm_delivery true now2 (_record_crm_delivery false now s p r lbl w)
      p2 r2 lbl2 w2).last_crm_payload =
      some (dSet (snapshotView p2) "crm_status"
        (.obj (_build_status_meta lbl2 now2 ((dGet r2 "response_code").getD .null)
          ((dGet r2 "error").getD .null)))) := by
  obtain ⟨f1pay, f1stat, f1pend, f1log, f1file⟩ := record_failure now s p r lbl w
  have hload1 : SnapFile.loadable
      (_record_crm_delivery false now s p r lbl w).snapshot_file = true := by
    rw [f1file]
    exact h
  obtain ⟨s2pend, s2log, s2stat, s2pay, _, _, _⟩ :=
    record_success now2 (_record_crm_delivery false now s p r lbl w) p2 r2 lbl2 w2 hload1
  exact ⟨f1pay, f1stat, f1pend, f1log, s2pend, s2log, s2stat, s2pay⟩

/-- C7 witness: the degraded-flag round trip at a concrete session — a
failed write of a `failed` outcome followed by a successful write of a
`synced` outcome. -/
theorem c7_witness :
    (_record_crm_delivery false "N1" exSessionBase exPayloadWithId exErrResult
      "failed" false).last_crm_payload = exSessionBase.last_crm_payload
  ∧ (_record_crm_delivery false "N1" exSessionBase exPayloadWithId exErrResult
      "failed" false).last_crm_status = exSessionBase.last_crm_status
  ∧ (_record_crm_delivery false "N1" exSessionBase exPayloadWithId exErrResult
      "failed" false).crm_snapshot_warning_pending = true
  ∧ (_record_crm_delivery false "N1" exSessionBase exPayloadWithId exErrResult
      "failed" false).crm_snapshot_warning_logged = true
  ∧ (_record_crm_delivery true "N2" (_record_crm_delivery false "N1" exSessionBase
      exPayloadWithId exErrResult "failed" false) exPayloadWithId exOkResult "synced"
      false).crm_snapshot_warning_pending = false
  ∧ (_record_crm_delivery true "N2" (_record_crm_delivery false "N1" exSessionBase
      exPayloadWithId exErrResult "failed" false) exPayloadWithId exOkResult "synced"
      false).crm_snapshot_warning_logged = false
  ∧ (_record_crm_delivery true "N2" (_record_crm_delivery false "N1" exSessionBase
      exPayloadWithId exErrResult "failed" false) exPayloadWithId exOkResult "synced"
      false).last_crm_status =
      some (_build_status_meta "synced" "N2" ((dGet exOkResult "response_code").getD .null)
        ((dGet exOkResult "error").getD .null))
  ∧ (_record_crm_delivery true "N2" (_record_crm_delivery false "N1" exSessionBase
      exPayloadWithId exErrResult "failed" false) exPayloadWithId exOkResult "synced"
      false).last_crm_payload =
      some (dSet (snapshotView exPayloadWithId) "crm_status"
        (.obj (_build_status_meta "synced" "N2" ((dGet exOkResult "response_code").getD .null)
          ((dGet exOkResult "error").getD .null)))) :=
  c7_snapshot_degraded "N1" "N2" exSessionBase exPayloadWithId exErrResult exPayloadWithId
    exOkResult "failed" "synced" false false rfl


theorem cache_success (now : String) (s : Session) (p : Dict) (r : Option Dict) (lbl : String)
    (h : SnapFile.loadable s.snapshot_file = true) :
    (_cache_payload true now s p r lbl).last_crm_status =
      some (_build_status_meta lbl now
        ((dGet (r.getD cachedResultDict) "response_code").getD .null)
        ((dGet (r.getD cachedResultDict) "error").getD .null))
  ∧ statusStateOfFile (_cache_payload true now s p r lbl).snapshot_file = some (.str lbl)
  ∧ SnapFile.loadable (_cache_payload true now s p r lbl).snapshot_file = true := by
  simp only [_cache_payload]
  refine ⟨(record_success now _ _ _ lbl false (by exact h)).2.2.1,
    (record_success now _ _ _ lbl false (by exact h)).2.2.2.2.2.1,
    (record_success now _ _ _ lbl false (by exact h)).2.2.2.2.1⟩

/-- C3: with effective maximum retries N and a delivery client that fails
every attempt, the payload is requeued with a `retrying` record after each
of the first N-1 attempts; after exactly the N-th attempt it is recorded
`failed` and moved into the offline cache with attempt counter N; the
worker makes exactly the N attempts with retry counts 0..N-1 and never an
(N+1)-th — further worker iterations change nothing. -/
theorem c3_bounded_retry (cfg : Int) (N : Nat) (client : Client) (dk : Bool)
    (now fid : String) (s : Session) (p : Dict)
    (hN : crmMaxRetries cfg = (N : Int)) (hN1 : 1 ≤ N)
    (herr : ∀ q rc, statusIsOk (_safe_send_to_crm client q rc) = false)
    (hq : s.crm_queue = [p]) (hoff : s.offline = false) (hp : attemptsOf p = 0) :
    (∀ j, j < N →
        (workerSteps cfg client dk now fid j s).ops_log =
          s.ops_log ++ List.replicate j "retrying"
      ∧ ∃ q, (workerSteps cfg client dk now fid j s).crm_queue = [q]
          ∧ attemptsOf q = (j : Int))
  ∧ (workerSteps cfg client dk now fid N s).ops_log =
      s.ops_log ++ (List.replicate (N - 1) "retrying" ++ ["failed"])
  ∧ (workerSteps cfg client dk now fid N s).crm_queue = []
  ∧ (workerSteps cfg client dk now fid N s).delivery_attempts =
      s.delivery_attempts ++ (List.range' 0 N).map (fun i => (i : Int))
  ∧ (∃ e, (workerSteps cfg client dk now fid N s).offline_cache =
      s.offline_cache ++ [e] ∧ attemptsOf e = (N : Int))
  ∧ (∀ m, workerSteps cfg client dk now fid (N + m) s =
      workerSteps cfg client dk now fid N s) := by
  obtain ⟨hqN, hoffN, hopsN, hattN, e, hce, hae⟩ :=
    retryRunFull cfg client dk now fid N hN herr N hN1 0 (by omega) s p hq hoff
      (by simpa using hp)
  refine ⟨?_, hopsN, hqN, hattN, ⟨e, hce, hae⟩, ?_⟩
  · intro j hj
    obtain ⟨ho, _, hex⟩ := retryRunPartial cfg client dk now fid N hN herr s p hq hoff hp j hj
    exact ⟨ho, hex⟩
  · intro m
    rw [workerSteps_add]
    exact workerSteps_empty cfg client dk now fid _ hqN m

/-- C3 witness: two worker iterations with `maxRetries = 2` and an
always-failing client record `retrying` then `failed`, empty the queue,
and make exactly the attempts 0 and 1. -/
theorem c3_witness :
    (workerSteps 2 exErrClient true "NOW" "FRESH" 2 exSessionQueue).ops_log =
      exSessionQueue.ops_log ++ (List.replicate (2 - 1) "retrying" ++ ["failed"])
  ∧ (workerSteps 2 exErrClient true "NOW" "FRESH" 2 exSessionQueue).crm_queue = []
  ∧ (workerSteps 2 exErrClient true "NOW" "FRESH" 2 exSessionQueue).delivery_attempts =
      exSessionQueue.delivery_attempts ++ (List.range' 0 2).map (fun i => (i : Int)) :=
  ⟨(c3_bounded_retry 2 2 exErrClient true "NOW" "FRESH" exSessionQueue exPayload
      (by decide) (by omega) (fun _ _ => rfl) rfl rfl rfl).2.1,
    (c3_bounded_retry 2 2 exErrClient true "NOW" "FRESH" exSessionQueue exPayload
      (by decide) (by omega) (fun _ _ => rfl) rfl rfl rfl).2.2.1,
    (c3_bounded_retry 2 2 exErrClient true "NOW" "FRESH" exSessionQueue exPayload
      (by decide) (by omega) (fun _ _ => rfl) rfl rfl rfl).2.2.2.1⟩


/-- C8: a payload processed while offline mode is active causes no network
attempt (the result is independent of the delivery client, and no delivery
attempt is traced); it is appended to the Offline Cache marked
`_offline_cached` with a `cached` ops record, the in-memory and on-disk
last delivery status read `cached`, and the resulting snapshot file stays
loadable with a non-empty cache; flushing any such session after turning
offline mode off with an always-succeeding client empties the Offline
Cache, counts every entry as flushed, and leaves the snapshot's last
delivery status state `synced`. -/
theorem c8_offline_roundtrip (cfg : Int) (c₁ c₂ clientOk : Client)
    (now now2 fid : String) (s : Session) (p : Dict)
    (hoffs : s.offline = true)
    (hload : SnapFile.loadable s.snapshot_file = true)
    (hok : ∀ q rc, statusIsOk (_safe_send_to_crm clientOk q rc) = true) :
    _process_payload cfg c₁ true now fid s p s.offline =
      _process_payload cfg c₂ true now fid s p s.offline
  ∧ (_process_payload cfg c₁ true now fid s p s.offline).delivery_attempts = s.delivery_attempts
  ∧ (∃ e, (_process_payload cfg c₁ true now fid s p s.offline).offline_cache =
        s.offline_cache ++ [e] ∧ dGet e "_offline_cached" = some (.bool true))
  ∧ (_process_payload cfg c₁ true now fid s p s.offline).ops_log = s.ops_log ++ ["cached"]
  ∧ (_process_payload cfg c₁ true now fid s p s.offline).last_crm_status =
      some (_build_status_meta "cached" now .null .null)
  ∧ statusStateOfFile (_process_payload cfg c₁ true now fid s p s.offline).snapshot_file =
      some (.str "cached")
  ∧ SnapFile.loadable (_process_payload cfg c₁ true now fid s p s.offline).snapshot_file = true
  ∧ (_process_payload cfg c₁ true now fid s p s.offline).offline_cache ≠ []
  ∧ (∀ s' : Session, s'.offline = false →
      SnapFile.loadable s'.snapshot_file = true → s'.offline_cache ≠ [] →
      (flush_offline_cache cfg clientOk true now2 s').2.offline_cache = []
      ∧ (flush_offline_cache cfg clientOk true now2 s').1 = s'.offline_cache.length
      ∧ statusStateOfFile
          (flush_offline_cache cfg clientOk true now2 s').2.snapshot_file =
            some (.str "synced")) := by
  have heq1 := process_offline_eq cfg c₁ true now fid s p s.offline (Or.inr hoffs)
  have heq2 := process_offline_eq cfg c₂ true now fid s p s.offline (Or.inr hoffs)
  obtain ⟨hstat, hfile, hloadable⟩ := cache_success now s
    (dSet (_generate_payload_id fid p).2 "_crm_retry_attempts"
      (.num (attemptsOf (_generate_payload_id fid p).2))) none "cached" hload
  refine ⟨heq1.trans heq2.symm, ?_, ?_, ?_, ?_, ?_, ?_, ?_, ?_⟩
  · rw [heq1, cache_delivery_attempts]
  · rw [heq1, cache_offline_cache]
    refine ⟨_, rfl, ?_⟩
    rw [dGet_dSet_ne _ _ _ _ (by decide), dGet_dSet_ne _ _ _ _ (by decide), dGet_dSet_self]
  · rw [heq1, cache_ops_log]
  · rw [heq1]
    exact hstat
  · rw [heq1]
    exact hfile
  · rw [heq1]
    exact hloadable
  · rw [heq1, cache_offline_cache]
    simp
  · intro s' hoff' hload' hne
    obtain ⟨hc, hr, hl, hnil, hsyn⟩ :=
      flushLoop_ok cfg clientOk now2 hok s'.offline_cache s' 0 [] hload'
    simp only [flush_offline_cache]
    rw [if_neg (by simp [hoff']), hc]
    rw [if_pos (by simp only [Nat.zero_add, ne_eq, List.length_eq_zero]; exact hne)]
    exact ⟨hr, by simp, hsyn hne⟩


/-- C8 witness: the round trip at a concrete fresh offline session — the
payload is cached with status `cached` and no client interaction, and
after toggling offline off, a flush with a succeeding client empties the
cache and the snapshot reads `synced`. -/
theorem c8_witness :
    (_process_payload 3 exErrClient true "NOW" "FRESH" exSessionOffline exPayload
      exSessionOffline.offline).ops_log = exSessionOffline.ops_log ++ ["cached"]
  ∧ statusStateOfFile (_process_payload 3 exErrClient true "NOW" "FRESH" exSessionOffline
      exPayload exSessionOffline.offline).snapshot_file = some (.str "cached")
  ∧ (flush_offline_cache 3 exOkClient true "NOW2"
      { _process_payload 3 exErrClient true "NOW" "FRESH" exSessionOffline exPayload
          exSessionOffline.offline with offline := false }).2.offline_cache = []
  ∧ statusStateOfFile (flush_offline_cache 3 exOkClient true "NOW2"
      { _process_payload 3 exErrClient true "NOW" "FRESH" exSessionOffline exPayload
          exSessionOffline.offline with offline := false }).2.snapshot_file =
      some (.str "synced") := by
  have H := c8_offline_roundtrip 3 exErrClient exErrClient exOkClient "NOW" "NOW2" "FRESH"
    exSessionOffline exPayload rfl rfl (fun _ _ => rfl)
  have Hflush := H.2.2.2.2.2.2.2.2
    { _process_payload 3 exErrClient true "NOW" "FRESH" exSessionOffline exPayload
        exSessionOffline.offline with offline := false }
    rfl H.2.2.2.2.2.2.1 H.2.2.2.2.2.2.2.1
  exact ⟨H.2.2.2.1, H.2.2.2.2.2.1, Hflush.1, Hflush.2.2⟩

end CrmSync
